import Mathlib

set_option linter.unusedVariables false

/-!
Verification of the UniNotes document-lifecycle core: a shallow embedding of
`backend/app/services/paper.py` (PaperService) and the report-resolution
endpoints of `backend/app/routers/admin.py`, together with proofs of the
specified properties.

Modelling conventions:
* database tables (papers, ratings, reports, notifications) are lists of rows;
  ORM in-place mutation is replace-by-id; a raised exception is `Except.error`
  and leaves the caller's state unchanged (the session is rolled back or never
  committed on every raising path of the modelled code);
* UUIDs are `Nat`, timestamps are `Int` (one unit = one day, used only for the
  upload-date-range cutoff arithmetic);
* Python `round(x, 2)` on a rating average is modelled as round-half-to-even of
  the exact rational, represented in hundredths (`Int`, fixed point with two
  decimal places); a nullable JSON number is `Option Int`;
* SQL `ilike '%x%'` is case-insensitive substring, `ilike 'x%'` is
  case-insensitive prefix; both via structurally recursive string helpers so
  that concrete instances evaluate inside the kernel.
The model covers the Paper kind (papers/ratings/reports tables); the Note kind
is a near-identical copy in the source and is outside the claims considered.
-/

/-- Lowercase a string (Python `str.lower`, `ilike` case folding), structurally. -/
def lowerStr (s : String) : String := ⟨s.data.map Char.toLower⟩

/-- Does the first character list start with the second? -/
def startsWithL : List Char → List Char → Bool
  | _, [] => true
  | [], _ :: _ => false
  | c :: cs, p :: ps => c == p && startsWithL cs ps

/-- Does the first character list contain the second as a contiguous sublist? -/
def subList : List Char → List Char → Bool
  | [], p => startsWithL [] p
  | c :: cs, p => startsWithL (c :: cs) p || subList cs p

/-- Substring test (Python `pat in s`). -/
def containsSub (s pat : String) : Bool := subList s.data pat.data

/-- Case-insensitive substring (SQL `ilike '%pat%'`). -/
def icontains (s pat : String) : Bool := containsSub (lowerStr s) (lowerStr pat)

/-- Case-insensitive prefix (SQL `ilike 'pat%'`). -/
def iprefix (s pat : String) : Bool := startsWithL (lowerStr s).data (lowerStr pat).data

/-- Insertion step of insertion sort. -/
def insertBy (le : α → α → Bool) (a : α) : List α → List α
  | [] => [a]
  | b :: bs => if le a b then a :: b :: bs else b :: insertBy le a bs

/-- Insertion sort; models the ORDER BY of the search query (the claims proved
below depend only on the membership of the sorted list, not on tie order). -/
def sortBy (le : α → α → Bool) : List α → List α
  | [] => []
  | a :: as => insertBy le a (sortBy le as)

/-- Round a/b (b > 0) half to even, as Python `round` does; models
`round(total_stars / total_ratings, 2)` when applied to `a = 100 * stars`. -/
def roundHalfEvenDiv (a : Int) (b : Nat) : Int :=
  let f := Int.fdiv a b
  let r := a - f * b
  if 2 * r < (b : Int) then f
  else if (b : Int) < 2 * r then f + 1
  else if f % 2 = 0 then f else f + 1

/-- Moderation status of a paper (`PaperStatus` in `db/models.py`). -/
inductive PStatus where
  | pending
  | approved
  | rejected
deriving DecidableEq, Repr

/-- Report status (`ReportStatus` in `db/models.py`). -/
inductive RStatus where
  | opened
  | closed
deriving DecidableEq, Repr

/-- User role (`student`/`admin`). -/
inductive Role where
  | student
  | admin
deriving DecidableEq, Repr

/-- The authenticated actor (fields of `User` used by the modelled code). -/
structure User where
  id : Nat
  role : Role
deriving DecidableEq, Repr

/-- A row of the `papers` table (fields used by the modelled code; `tags` is
the view through the `paper_tags` association used by the search tag filter). -/
structure Paper where
  id : Nat
  title : String
  description : Option String
  exam_year : Nat
  subject_id : Nat
  storage_key : String
  file_hash : String
  uploader_id : Option Nat
  status : PStatus
  moderation_notes : Option String
  download_count : Nat
  view_count : Nat
  created_at : Int
  approved_at : Option Int
  tags : List String
deriving DecidableEq, Repr

/-- A row of the `ratings` table. -/
structure Rating where
  id : Nat
  user_id : Nat
  paper_id : Nat
  rating : Nat
  updated_at : Option Int
deriving DecidableEq, Repr

/-- A row of the `reports` table. -/
structure Report where
  id : Nat
  paper_id : Nat
  reporter_id : Nat
  reason : String
  details : Option String
  status : RStatus
  resolved_by_id : Option Nat
  resolved_at : Option Int
  admin_notes : Option String
deriving DecidableEq, Repr

/-- Notification type (`NotificationType` values used by the modelled code). -/
inductive NotifKind where
  | success
  | error
  | info
  | warning
deriving DecidableEq, Repr

/-- A row of the `notifications` table (one row per dispatch attempt). -/
structure Notif where
  user_id : Nat
  kind : NotifKind
  title : String
  message : String
  related_paper_id : Option Nat
  related_report_id : Option Nat
deriving DecidableEq, Repr

/-- The mutable relational state threaded through the modelled operations. -/
structure DB where
  papers : List Paper
  ratings : List Rating
  reports : List Report
  notifications : List Notif
deriving DecidableEq, Repr

/-- Taxonomy rows (fields used by the search composer's joins and filters). -/
structure SubjectRow where
  id : Nat
  semester_id : Nat
  name : String
  code : Option String
  slug : String
deriving DecidableEq, Repr

structure SemesterRow where
  id : Nat
  branch_id : Nat
  name : String
  number : Nat
deriving DecidableEq, Repr

structure BranchRow where
  id : Nat
  program_id : Nat
  name : String
  code : Option String
deriving DecidableEq, Repr

structure ProgramRow where
  id : Nat
  university_id : Nat
  name : String
  duration_years : Option Nat
deriving DecidableEq, Repr

structure UniversityRow where
  id : Nat
  name : String
  code : Option String
  slug : String
deriving DecidableEq, Repr

/-- The read-only taxonomy store (University→Program→Branch→Semester→Subject). -/
structure TaxonomyEnv where
  subjects : List SubjectRow
  semesters : List SemesterRow
  branches : List BranchRow
  programs : List ProgramRow
  universities : List UniversityRow
deriving Repr

/-- The full taxonomy chain of a paper, produced by the 5-level inner join. -/
structure Chain where
  subject : SubjectRow
  semester : SemesterRow
  branch : BranchRow
  program : ProgramRow
  university : UniversityRow
deriving Repr

/-- Resolve the taxonomy chain of a paper (the inner-join
`Paper.subject → Subject.semester → Semester.branch → Branch.program →
Program.university`); `none` means the join drops the row. -/
def chainOf (env : TaxonomyEnv) (p : Paper) : Option Chain :=
  match env.subjects.find? (fun s => s.id == p.subject_id) with
  | none => none
  | some s =>
    match env.semesters.find? (fun m => m.id == s.semester_id) with
    | none => none
    | some m =>
      match env.branches.find? (fun b => b.id == m.branch_id) with
      | none => none
      | some b =>
        match env.programs.find? (fun pr => pr.id == b.program_id) with
        | none => none
        | some pr =>
          match env.universities.find? (fun u => u.id == pr.university_id) with
          | none => none
          | some u => some ⟨s, m, b, pr, u⟩

/-- Exceptions raised by the modelled code paths (`utils/errors.py` classes and
router `HTTPException`s). The spec's `InvalidTransition` is the service's
`ValidationError("Only pending papers can be moderated")`. -/
inductive PaperError where
  | paperNotFound
  | duplicateFile
  | validationError (detail : String)
  | insufficientPrivileges
  | httpError (status_code : Nat) (detail : String)
deriving DecidableEq, Repr

/-- Replace the papers whose id matches the given row (ORM in-place update). -/
def replacePaper (ps : List Paper) (p : Paper) : List Paper :=
  ps.map (fun q => if q.id == p.id then p else q)

/-- Replace the ratings whose id matches the given row. -/
def replaceRating (rs : List Rating) (r : Rating) : List Rating :=
  rs.map (fun q => if q.id == r.id then r else q)

/-- Replace the reports whose id matches the given row. -/
def replaceReport (rs : List Report) (r : Report) : List Report :=
  rs.map (fun q => if q.id == r.id then r else q)

/-- Input of `create_paper` (`PaperCreate` schema). -/
structure PaperCreate where
  title : String
  description : Option String
  exam_year : Nat
  subject_id : Nat
  storage_key : String
  file_hash : String
  tags : List String
deriving DecidableEq, Repr

/-- Normalized tag names attached on creation (`_add_tags_to_paper`: skip
blank names, strip+lowercase; the get-or-create of `Tag` rows only interns
names and does not change which names end up attached). -/
def normalizeTags (tags : List String) : List String :=
  (tags.filter (fun t => !(t.trim == ""))).map (fun t => lowerStr t.trim)

/-- `PaperService.create_paper`: duplicate-hash guard, subject check, storage
check, then insert with status PENDING. `subjectIds` / `storageKeys` stand for
the subjects table and the storage collaborator's `check_file_exists`. -/
def create_paper (db : DB) (pd : PaperCreate) (uploaderId : Nat)
    (subjectIds : List Nat) (storageKeys : List String) (newId : Nat)
    (now : Int) : Except PaperError (DB × Paper) :=
  if (db.papers.find? (fun p => p.file_hash == pd.file_hash)).isSome then
    .error .duplicateFile
  else if !(subjectIds.contains pd.subject_id) then
    .error (.validationError "Subject not found")
  else if !(storageKeys.contains pd.storage_key) then
    .error (.validationError "File not found in storage")
  else
    let new_paper : Paper :=
      { id := newId
        title := pd.title
        description := pd.description
        exam_year := pd.exam_year
        subject_id := pd.subject_id
        storage_key := pd.storage_key
        file_hash := pd.file_hash
        uploader_id := some uploaderId
        status := .pending
        moderation_notes := none
        download_count := 0
        view_count := 0
        created_at := now
        approved_at := none
        tags := normalizeTags pd.tags }
    .ok ({ db with papers := db.papers ++ [new_paper] }, new_paper)

/-- `PaperService.moderate_paper`: only PENDING papers may be moderated unless
`force`; approve stamps `approved_at`, both actions store the notes. -/
def moderate_paper (db : DB) (paper_id : Nat) (action : String)
    (notes : Option String) (moderatorId : Nat) (force : Bool)
    (now : Int) : Except PaperError (DB × Paper) :=
  match db.papers.find? (fun p => p.id == paper_id) with
  | none => .error .paperNotFound
  | some paper =>
    if !force && !(paper.status == PStatus.pending) then
      .error (.validationError "Only pending papers can be moderated")
    else if action == "approve" then
      let p := { paper with
                  status := PStatus.approved
                  approved_at := some now
                  moderation_notes := notes }
      .ok ({ db with papers := replacePaper db.papers p }, p)
    else if action == "reject" then
      let p := { paper with
                  status := PStatus.rejected
                  moderation_notes := notes }
      .ok ({ db with papers := replacePaper db.papers p }, p)
    else
      .error (.validationError "Invalid moderation action")

/-- State after a moderation request: the new state on success, the old state
when the request raises (nothing was committed on the raising paths). -/
def runModerate (db : DB) (paper_id : Nat) (action : String)
    (notes : Option String) (moderatorId : Nat) (force : Bool)
    (now : Int) : DB :=
  match moderate_paper db paper_id action notes moderatorId force now with
  | .ok (db', _) => db'
  | .error _ => db

/-- `PaperService.rate_paper`: the paper must exist with status APPROVED (else
it is reported as not found), self-rating is rejected, and an existing
(user, paper) rating row is updated in place, otherwise a new row is inserted. -/
def rate_paper (db : DB) (paper_id : Nat) (userId : Nat) (value : Nat)
    (newId : Nat) (now : Int) : Except PaperError (DB × Rating) :=
  match db.papers.find? (fun p => p.id == paper_id && p.status == PStatus.approved) with
  | none => .error .paperNotFound
  | some paper =>
    if paper.uploader_id == some userId then
      .error (.validationError "You cannot rate your own paper")
    else
      match db.ratings.find? (fun r => r.user_id == userId && r.paper_id == paper_id) with
      | some existing =>
        let r := { existing with rating := value, updated_at := some now }
        .ok ({ db with ratings := replaceRating db.ratings r }, r)
      | none =>
        let r : Rating :=
          { id := newId, user_id := userId, paper_id := paper_id
            rating := value, updated_at := none }
        .ok ({ db with ratings := db.ratings ++ [r] }, r)

/-- State after a rating request (old state when the request raises). -/
def runRate (db : DB) (paper_id : Nat) (userId : Nat) (value : Nat)
    (newId : Nat) (now : Int) : DB :=
  match rate_paper db paper_id userId value newId now with
  | .ok (db', _) => db'
  | .error _ => db

/-- Result of `_calculate_paper_rating_info` (nullable JSON numbers as
`Option`; the average is in hundredths). -/
structure RatingInfo where
  average_cents : Option Int
  total_ratings : Nat
  user_rating : Option Nat
  user_rating_id : Option Nat
deriving DecidableEq, Repr

/-- `PaperService._calculate_paper_rating_info`: with no ratings the average
is `None`; otherwise the rounded average plus the viewer's own rating. -/
def calculate_paper_rating_info (db : DB) (paper_id : Nat)
    (user : Option User) : RatingInfo :=
  let ratings := db.ratings.filter (fun r => r.paper_id == paper_id)
  if ratings.isEmpty then
    ⟨none, 0, none, none⟩
  else
    let total := ratings.length
    let stars := (ratings.map (fun r => r.rating)).sum
    let userRow : Option Rating :=
      match user with
      | some u => ratings.find? (fun r => r.user_id == u.id)
      | none => none
    { average_cents := some (roundHalfEvenDiv (100 * (stars : Int)) total)
      total_ratings := total
      user_rating := userRow.map (fun r => r.rating)
      user_rating_id := userRow.map (fun r => r.id) }

/-- Result of `get_paper_rating_stats` (the average slot is the JSON value:
always a number in the code, `0.0` when there are no ratings). -/
structure RatingStats where
  total_ratings : Nat
  average_cents : Option Int
  dist1 : Nat
  dist2 : Nat
  dist3 : Nat
  dist4 : Nat
  dist5 : Nat
deriving DecidableEq, Repr

/-- Search filter set (`PaperSearchFilters` schema). A `none`/empty value means
the filter is absent (Python truthiness for the string filters). -/
structure PaperSearchFilters where
  university_id : Option Nat
  program_id : Option Nat
  branch_id : Option Nat
  semester_id : Option Nat
  subject_id : Option Nat
  exam_year : Option Nat
  tags : List String
  search : Option String
  status : Option PStatus
  uploaded_by : Option String
  academic_level : Option String
  content_type : Option String
  upload_date_range : Option String
  university : Option String
  subject : Option String
  sort : Option String
  order : Option String
deriving DecidableEq, Repr

/-- Python truthiness of an `Optional[str]` (`None` and `""` are falsy). -/
def optTruthy (o : Option String) : Bool :=
  match o with
  | some s => !(s == "")
  | none => false

/-- Result page of the search (`PaperListResponse` schema). -/
structure PaperListResponse where
  items : List Paper
  total : Nat
  page : Nat
  page_size : Nat
  total_pages : Nat
deriving Repr

/-- The ownership/status stage of `search_papers`: the "My Papers" branch shows
the requester's own papers (all statuses unless one is requested); otherwise
non-admin and anonymous viewers see only APPROVED papers, and an admin may
request a status explicitly. -/
def statusStage (papers : List Paper) (filters : PaperSearchFilters)
    (user : Option User) : List Paper :=
  match user with
  | some u =>
    if filters.uploaded_by == some "me" then
      let q := papers.filter (fun p => p.uploader_id == some u.id)
      match filters.status with
      | some st => q.filter (fun p => p.status == st)
      | none => q
    else if !(u.role == Role.admin) then
      papers.filter (fun p => p.status == PStatus.approved)
    else
      match filters.status with
      | some st => papers.filter (fun p => p.status == st)
      | none => papers
  | none => papers.filter (fun p => p.status == PStatus.approved)

/-- Undergraduate name/duration patterns of the academic-level heuristic. -/
def undergradCond (pr : ProgramRow) : Bool :=
  icontains pr.name "bachelor" ||
  iprefix pr.name "b.tech" ||
  iprefix pr.name "b.sc" ||
  iprefix pr.name "b.com" ||
  iprefix pr.name "b.a" ||
  icontains pr.name "btech" ||
  icontains pr.name "b tech" ||
  icontains pr.name "undergraduate" ||
  (match pr.duration_years with | some d => decide (d ≤ 4) | none => false)

/-- Graduate keywords excluded from the undergraduate bucket. -/
def gradExclusion (pr : ProgramRow) : Bool :=
  icontains pr.name "master" || icontains pr.name "m.tech" ||
  icontains pr.name "m.sc" || icontains pr.name "m.com" ||
  icontains pr.name "m.a" || icontains pr.name "mtech" ||
  icontains pr.name "phd" || icontains pr.name "doctorate"

/-- Graduate name/duration patterns of the academic-level heuristic. -/
def gradCond (pr : ProgramRow) : Bool :=
  icontains pr.name "master" || icontains pr.name "m.tech" ||
  icontains pr.name "m.sc" || icontains pr.name "m.com" ||
  icontains pr.name "m.a" || icontains pr.name "mtech" ||
  icontains pr.name "m tech" || icontains pr.name "phd" ||
  icontains pr.name "doctorate" || icontains pr.name "graduate" ||
  (match pr.duration_years with | some d => decide (4 < d) | none => false)

/-- Rating aggregate of a paper for the rating sort (the grouped subquery:
`none` when the paper has no ratings, else (star sum, count)). -/
def ratingAgg (db : DB) (pid : Nat) : Option (Nat × Nat) :=
  let rs := db.ratings.filter (fun r => r.paper_id == pid)
  if rs.isEmpty then none
  else some ((rs.map (fun r => r.rating)).sum, rs.length)

/-- Sort comparator of `search_papers` ("a sorts before or with b"); averages
are compared by cross-multiplication, with nulls last on descending and nulls
first on ascending order as in the source. -/
def paperLe (db : DB) (filters : PaperSearchFilters) (a b : Paper) : Bool :=
  if filters.sort == some "download_count" then
    if filters.order == some "desc" then decide (b.download_count ≤ a.download_count)
    else decide (a.download_count ≤ b.download_count)
  else if filters.sort == some "exam_year" then
    if filters.order == some "desc" then decide (b.exam_year ≤ a.exam_year)
    else decide (a.exam_year ≤ b.exam_year)
  else if filters.sort == some "title" then
    if filters.order == some "desc" then !(decide (a.title < b.title))
    else !(decide (b.title < a.title))
  else if filters.sort == some "rating" then
    if filters.order == some "desc" then
      match ratingAgg db a.id, ratingAgg db b.id with
      | some x, some y => decide (y.1 * x.2 ≤ x.1 * y.2)
      | some _, none => true
      | none, some _ => false
      | none, none => true
    else
      match ratingAgg db a.id, ratingAgg db b.id with
      | some x, some y => decide (x.1 * y.2 ≤ y.1 * x.2)
      | none, _ => true
      | some _, none => false
  else
    if filters.order == some "desc" then decide (b.created_at ≤ a.created_at)
    else decide (a.created_at ≤ b.created_at)

/-- Is the full taxonomy chain joined for the id filters
(`taxonomy_already_joined` in the source)? -/
def taxIdsPresent (filters : PaperSearchFilters) : Bool :=
  filters.university_id.isSome || filters.program_id.isSome ||
    filters.branch_id.isSome || filters.semester_id.isSome

/-- Taxonomy id filters applied over the joined chain. -/
def taxIdsStage (env : TaxonomyEnv) (filters : PaperSearchFilters)
    (ps : List Paper) : List Paper :=
  if taxIdsPresent filters then
    ps.filter (fun p =>
      match chainOf env p with
      | some c =>
        (match filters.university_id with
          | some i => c.university.id == i | none => true) &&
        (match filters.program_id with
          | some i => c.program.id == i | none => true) &&
        (match filters.branch_id with
          | some i => c.branch.id == i | none => true) &&
        (match filters.semester_id with
          | some i => c.semester.id == i | none => true)
      | none => false)
  else ps

/-- Subject id filter. -/
def subjectIdStage (filters : PaperSearchFilters) (ps : List Paper) :
    List Paper :=
  match filters.subject_id with
  | some sid => ps.filter (fun p => p.subject_id == sid)
  | none => ps

/-- Exam-year filter. -/
def examYearStage (filters : PaperSearchFilters) (ps : List Paper) :
    List Paper :=
  match filters.exam_year with
  | some y => ps.filter (fun p => p.exam_year == y)
  | none => ps

/-- Tag filter (`query.join(Paper.tags).filter(Tag.name.in_(filters.tags))`):
a paper passes iff it carries at least one of the listed tag names. -/
def tagsStage (filters : PaperSearchFilters) (ps : List Paper) : List Paper :=
  if filters.tags.isEmpty then ps
  else ps.filter (fun p => p.tags.any (fun t => filters.tags.contains t))

/-- Free-text filter over title/description (`ilike '%search%'`). -/
def searchTextStage (filters : PaperSearchFilters) (ps : List Paper) :
    List Paper :=
  if optTruthy filters.search then
    let s := filters.search.getD ""
    ps.filter (fun p => icontains p.title s ||
      (match p.description with | some d => icontains d s | none => false))
  else ps

/-- `needs_taxonomy_join` of the source (its last disjunct is vacuous because
the ids, when present, have already caused the join). -/
def needsTaxJoin (filters : PaperSearchFilters) : Bool :=
  optTruthy filters.university || optTruthy filters.academic_level ||
    (!taxIdsPresent filters && taxIdsPresent filters)

/-- `needs_subject_join` of the source. -/
def needsSubjJoin (filters : PaperSearchFilters) : Bool :=
  optTruthy filters.subject && !needsTaxJoin filters &&
    !taxIdsPresent filters

/-- The second join pass: a late full-taxonomy or subject-only inner join
drops papers whose chain (resp. subject) does not resolve. -/
def joinGuardStage (env : TaxonomyEnv) (filters : PaperSearchFilters)
    (ps : List Paper) : List Paper :=
  if needsTaxJoin filters && !taxIdsPresent filters then
    ps.filter (fun p => (chainOf env p).isSome)
  else if needsSubjJoin filters then
    ps.filter (fun p =>
      (env.subjects.find? (fun s => s.id == p.subject_id)).isSome)
  else ps

/-- University slug/name filter. -/
def universityStage (env : TaxonomyEnv) (filters : PaperSearchFilters)
    (ps : List Paper) : List Paper :=
  if optTruthy filters.university then
    let uq := filters.university.getD ""
    ps.filter (fun p =>
      match chainOf env p with
      | some c => c.university.slug == uq || icontains c.university.name uq
      | none => false)
  else ps

/-- Subject slug/name filter. -/
def subjectNameStage (env : TaxonomyEnv) (filters : PaperSearchFilters)
    (ps : List Paper) : List Paper :=
  if optTruthy filters.subject then
    let sq := filters.subject.getD ""
    ps.filter (fun p =>
      match env.subjects.find? (fun s => s.id == p.subject_id) with
      | some s => s.slug == sq || icontains s.name sq
      | none => false)
  else ps

/-- Academic-level heuristic filter. -/
def academicLevelStage (env : TaxonomyEnv) (filters : PaperSearchFilters)
    (ps : List Paper) : List Paper :=
  if filters.academic_level == some "undergraduate" then
    ps.filter (fun p =>
      match chainOf env p with
      | some c => undergradCond c.program && !gradExclusion c.program
      | none => false)
  else if filters.academic_level == some "graduate" then
    ps.filter (fun p =>
      match chainOf env p with
      | some c => gradCond c.program
      | none => false)
  else ps

/-- Upload-date-range filter (cutoff arithmetic in days). -/
def dateRangeStage (filters : PaperSearchFilters) (now : Int)
    (ps : List Paper) : List Paper :=
  match filters.upload_date_range with
  | some rg =>
    let cutoff : Option Int :=
      if rg == "1day" then some (now - 1)
      else if rg == "1week" then some (now - 7)
      else if rg == "1month" then some (now - 30)
      else if rg == "3months" then some (now - 90)
      else none
    match cutoff with
    | some c => ps.filter (fun p => decide (c ≤ p.created_at))
    | none => ps
  | none => ps

/-- The whole filter pipeline of `search_papers`, before count/sort/paging
(the `content_type` filter is a no-op in the source). -/
def searchFiltered (db : DB) (env : TaxonomyEnv)
    (filters : PaperSearchFilters) (user : Option User) (now : Int) :
    List Paper :=
  dateRangeStage filters now
    (academicLevelStage env filters
      (subjectNameStage env filters
        (universityStage env filters
          (joinGuardStage env filters
            (searchTextStage filters
              (tagsStage filters
                (examYearStage filters
                  (subjectIdStage filters
                    (taxIdsStage env filters
                      (statusStage db.papers filters user))))))))))

/-- `PaperService.search_papers`: the filter pipeline, count, sort and
pagination. Joins are modelled at entity level (a paper passes an inner join
iff its taxonomy chain resolves). -/
def search_papers (db : DB) (env : TaxonomyEnv) (filters : PaperSearchFilters)
    (page : Nat) (page_size : Nat) (user : Option User) (now : Int) :
    PaperListResponse :=
  let q := searchFiltered db env filters user now
  let total := q.length
  let sorted := sortBy (paperLe db filters) q
  let offset := (page - 1) * page_size
  let items := (sorted.drop offset).take page_size
  { items := items, total := total, page := page, page_size := page_size,
    total_pages := (total + page_size - 1) / page_size }

/-- `PaperService.get_paper_rating_stats`: 404 when the paper does not exist;
with no ratings it returns count 0 and average `0.0` (not null); otherwise the
rounded average and the distribution. -/
def get_paper_rating_stats (db : DB) (paper_id : Nat) :
    Except PaperError RatingStats :=
  match db.papers.find? (fun p => p.id == paper_id) with
  | none => .error .paperNotFound
  | some _ =>
    let ratings := db.ratings.filter (fun r => r.paper_id == paper_id)
    if ratings.isEmpty then
      .ok ⟨0, some 0, 0, 0, 0, 0, 0⟩
    else
      let total := ratings.length
      let stars := (ratings.map (fun r => r.rating)).sum
      .ok ⟨total, some (roundHalfEvenDiv (100 * (stars : Int)) total),
        ratings.countP (fun r => r.rating == 1),
        ratings.countP (fun r => r.rating == 2),
        ratings.countP (fun r => r.rating == 3),
        ratings.countP (fun r => r.rating == 4),
        ratings.countP (fun r => r.rating == 5)⟩

/-- `NotificationService.create_paper_status_notification`: append one
notification row for the uploader about a status change. -/
def create_paper_status_notification (db : DB) (user_id : Nat)
    (paper_title : String) (status : String) (admin_notes : String)
    (paper_id : Option Nat) : DB :=
  let base :=
    if lowerStr status == "approved" then
      (NotifKind.success, "Paper Approved",
        "Your paper '" ++ paper_title ++
          "' has been approved and is now available for download.")
    else if lowerStr status == "rejected" then
      (NotifKind.error, "Paper Rejected",
        "Your paper '" ++ paper_title ++ "' has been rejected.")
    else
      (NotifKind.info, "Paper Status Update",
        "Your paper '" ++ paper_title ++
          "' status has been updated to: " ++ status)
  let message :=
    if admin_notes == "" then base.2.2
    else base.2.2 ++ "\n\nReason: " ++ admin_notes
  { db with notifications := db.notifications ++
      [{ user_id := user_id, kind := base.1, title := base.2.1
         message := message, related_paper_id := paper_id
         related_report_id := none }] }

/-- `NotificationService.create_warning_notification`: append one warning
notification row for the uploader of a reported paper. -/
def create_warning_notification (db : DB) (user_id : Nat)
    (paper_title : String) (reason : String) (admin_notes : String)
    (paper_id : Option Nat) (report_id : Option Nat) : DB :=
  let m0 := "Your paper '" ++ paper_title ++
      "' has been reported for: " ++ reason ++ "."
  let m1 :=
    if admin_notes == "" then m0
    else m0 ++ "\n\nAdmin notes: " ++ admin_notes
  let message := m1 ++
    "\n\nPlease review our community guidelines to ensure your future " ++
    "uploads comply with our standards."
  { db with notifications := db.notifications ++
      [{ user_id := user_id, kind := NotifKind.warning
         title := "Warning: Issue with your paper", message := message
         related_paper_id := paper_id, related_report_id := report_id }] }

/-- Result payload of `resolve_report`. -/
structure ResolveResult where
  report_id : Nat
  action : String
  paper_action_taken : Option String
  status : RStatus
deriving DecidableEq, Repr

/-- `admin.resolve_report` (the paper-report half of the endpoint): 404 when
the report is missing, 400 when already CLOSED; otherwise the report is closed
and stamped, then the per-action side effects run (`take_action` force-rejects
on a rejection keyword in the notes, `remove_paper` always force-rejects and
notifies the uploader, `warn_user` only notifies). A raised error leaves the
state uncommitted. -/
def resolve_report (db : DB) (report_id : Nat) (action : String)
    (notes : String) (resolverId : Nat) (now : Int) :
    Except PaperError (DB × ResolveResult) :=
  match db.reports.find? (fun r => r.id == report_id) with
  | none => .error (.httpError 404 "Report not found")
  | some report =>
    if report.status == RStatus.closed then
      .error (.httpError 400 "Report is already resolved")
    else
      let r1 := { report with
                   status := RStatus.closed
                   resolved_by_id := some resolverId
                   resolved_at := some now }
      if action == "dismiss" then
        let r2 := { r1 with admin_notes := some (if notes == "" then "Report dismissed - no violation found"
             else notes) }
        .ok ({ db with reports := replaceReport db.reports r2 },
          ⟨report.id, action, none, RStatus.closed⟩)
      else if action == "take_action" then
        let r2 := { r1 with admin_notes := some (if notes == "" then "Action taken by admin - paper reviewed"
             else notes) }
        let db1 := { db with reports := replaceReport db.reports r2 }
        if containsSub (lowerStr notes) "reject" ||
            containsSub (lowerStr notes) "remove" then
          match moderate_paper db1 report.paper_id "reject"
              (some ("Rejected due to report: " ++ report.reason ++
                ". Admin notes: " ++ notes)) resolverId true now with
          | .error e => .error e
          | .ok (db2, _) =>
            .ok (db2, ⟨report.id, action, some "paper_rejected", RStatus.closed⟩)
        else
          .ok (db1, ⟨report.id, action, none, RStatus.closed⟩)
      else if action == "remove_paper" then
        let r2 := { r1 with admin_notes := some (if notes == "" then
              "Paper removed due to report: " ++ report.reason
             else notes) }
        let db1 := { db with reports := replaceReport db.reports r2 }
        let paperPre := db1.papers.find? (fun p => p.id == report.paper_id)
        match moderate_paper db1 report.paper_id "reject"
            (some ("Paper removed due to report: " ++ report.reason ++
              ". Admin notes: " ++ notes)) resolverId true now with
        | .error e => .error e
        | .ok (db2, _) =>
          let db3 :=
            match paperPre with
            | some p =>
              match p.uploader_id with
              | some uid =>
                create_paper_status_notification db2 uid p.title "rejected"
                  ("Paper removed due to report: " ++ report.reason ++ ". " ++
                    notes) (some p.id)
              | none => db2
            | none => db2
          .ok (db3, ⟨report.id, action, some "paper_removed", RStatus.closed⟩)
      else if action == "warn_user" then
        let r2 := { r1 with admin_notes := some (if notes == "" then "User warned about: " ++ report.reason
             else notes) }
        let db1 := { db with reports := replaceReport db.reports r2 }
        let db2 :=
          match db1.papers.find? (fun p => p.id == report.paper_id) with
          | some p =>
            match p.uploader_id with
            | some uid =>
              create_warning_notification db1 uid p.title report.reason notes
                (some p.id) (some report.id)
            | none => db1
          | none => db1
        .ok (db2, ⟨report.id, action, some "user_warned", RStatus.closed⟩)
      else
        let r2 := { r1 with admin_notes := some (if notes == "" then "Report resolved" else notes) }
        .ok ({ db with reports := replaceReport db.reports r2 },
          ⟨report.id, action, none, RStatus.closed⟩)

/-- Result payload of `bulk_resolve_reports`. -/
structure BulkResult where
  resolved_count : Nat
  total_requested : Nat
  papers_affected : Nat
  warnings_issued : Nat
deriving DecidableEq, Repr

/-- Per-report body of the bulk-resolution loop: skip a CLOSED report, close
an OPEN one and apply the per-action side effects, accumulating the counters. -/
def bulk_resolve_go (db : DB) (rs : List Report) (action : String)
    (notes : String) (resolverId : Nat) (now : Int)
    (resolved : Nat) (pa : Nat) (wi : Nat) :
    Except PaperError (DB × Nat × Nat × Nat) :=
  match rs with
  | [] => .ok (db, resolved, pa, wi)
  | report :: rest =>
    if report.status == RStatus.opened then
      let r1 := { report with
                   status := RStatus.closed
                   resolved_by_id := some resolverId
                   resolved_at := some now }
      if action == "dismiss" then
        let r2 := { r1 with admin_notes := some (if notes == "" then "Report dismissed - no violation found"
             else notes) }
        let db1 := { db with reports := replaceReport db.reports r2 }
        bulk_resolve_go db1 rest action notes resolverId now
          (resolved + 1) pa wi
      else if action == "take_action" then
        let r2 := { r1 with admin_notes := some (if notes == "" then "Action taken by admin - paper reviewed"
             else notes) }
        let db1 := { db with reports := replaceReport db.reports r2 }
        if containsSub (lowerStr notes) "reject" ||
            containsSub (lowerStr notes) "remove" then
          match moderate_paper db1 report.paper_id "reject"
              (some ("Rejected due to report: " ++ report.reason ++
                ". Admin notes: " ++ notes)) resolverId true now with
          | .error e => .error e
          | .ok (db2, _) =>
            bulk_resolve_go db2 rest action notes resolverId now
              (resolved + 1) (pa + 1) wi
        else
          bulk_resolve_go db1 rest action notes resolverId now
            (resolved + 1) pa wi
      else if action == "remove_paper" then
        let r2 := { r1 with admin_notes := some (if notes == "" then
              "Paper removed due to report: " ++ report.reason
             else notes) }
        let db1 := { db with reports := replaceReport db.reports r2 }
        let paperPre := db1.papers.find? (fun p => p.id == report.paper_id)
        match moderate_paper db1 report.paper_id "reject"
            (some ("Paper removed due to report: " ++ report.reason ++
              ". Admin notes: " ++ notes)) resolverId true now with
        | .error e => .error e
        | .ok (db2, _) =>
          let db3 :=
            match paperPre with
            | some p =>
              match p.uploader_id with
              | some uid =>
                create_paper_status_notification db2 uid p.title "rejected"
                  ("Paper removed due to report: " ++ report.reason ++ ". " ++
                    notes) (some p.id)
              | none => db2
            | none => db2
          bulk_resolve_go db3 rest action notes resolverId now
            (resolved + 1) (pa + 1) wi
      else if action == "warn_user" then
        let r2 := { r1 with admin_notes := some (if notes == "" then "User warned about: " ++ report.reason
             else notes) }
        let db1 := { db with reports := replaceReport db.reports r2 }
        let db2 :=
          match db1.papers.find? (fun p => p.id == report.paper_id) with
          | some p =>
            match p.uploader_id with
            | some uid =>
              create_warning_notification db1 uid p.title report.reason notes
                (some p.id) (some report.id)
            | none => db1
          | none => db1
        bulk_resolve_go db2 rest action notes resolverId now
          (resolved + 1) pa (wi + 1)
      else
        let r2 := { r1 with admin_notes := some (if notes == "" then "Report resolved" else notes) }
        let db1 := { db with reports := replaceReport db.reports r2 }
        bulk_resolve_go db1 rest action notes resolverId now
          (resolved + 1) pa wi
    else
      bulk_resolve_go db rest action notes resolverId now resolved pa wi

/-- `admin.bulk_resolve_reports` (the paper-report half): fetch the reports
named by the id set, 404 when none match, then resolve every OPEN one and
silently skip the CLOSED ones, returning the counters. -/
def bulk_resolve_reports (db : DB) (report_ids : List Nat) (action : String)
    (notes : String) (resolverId : Nat) (now : Int) :
    Except PaperError (DB × BulkResult) :=
  let reports := db.reports.filter (fun r => report_ids.contains r.id)
  if reports.isEmpty then
    .error (.httpError 404 "No reports found")
  else
    match bulk_resolve_go db reports action notes resolverId now 0 0 0 with
    | .error e => .error e
    | .ok (db', resolved, pa, wi) =>
      .ok (db', { resolved_count := resolved
                  total_requested := report_ids.length
                  papers_affected := pa
                  warnings_issued := wi })

/-- One admin request against the workflow, as reachable through the routers:
the moderation endpoint always calls the service with `force=False`; the
report-resolution endpoints are the only callers that force transitions, and
they only ever force `reject`. -/
inductive AdminOp where
  | moderateOp (paper_id : Nat) (action : String) (notes : Option String)
      (moderatorId : Nat) (now : Int)
  | resolveOp (report_id : Nat) (action : String) (notes : String)
      (resolverId : Nat) (now : Int)
  | bulkOp (report_ids : List Nat) (action : String) (notes : String)
      (resolverId : Nat) (now : Int)

/-- Apply one admin request; a raised error leaves the state unchanged. -/
def applyAdminOp (db : DB) (op : AdminOp) : DB :=
  match op with
  | .moderateOp pid a n mid t =>
    match moderate_paper db pid a n mid false t with
    | .ok (db', _) => db'
    | .error _ => db
  | .resolveOp rid a n uid t =>
    match resolve_report db rid a n uid t with
    | .ok (db', _) => db'
    | .error _ => db
  | .bulkOp ids a n uid t =>
    match bulk_resolve_reports db ids a n uid t with
    | .ok (db', _) => db'
    | .error _ => db

/-- Apply a sequence of admin requests. -/
def applyAdminOps (db : DB) (ops : List AdminOp) : DB :=
  ops.foldl applyAdminOp db

/-- State after a creation request (old state when the request raises). -/
def runCreate (db : DB) (pd : PaperCreate) (uploaderId : Nat)
    (subjectIds : List Nat) (storageKeys : List String) (newId : Nat)
    (now : Int) : DB :=
  match create_paper db pd uploaderId subjectIds storageKeys newId now with
  | .ok (db', _) => db'
  | .error _ => db

/-- The C9 safety predicate: every paper row with the given id is REJECTED. -/
def rejectedLocked (db : DB) (pid0 : Nat) : Prop :=
  ∀ p ∈ db.papers, p.id = pid0 → p.status = PStatus.rejected

/-! ### Concrete fixtures used by the witnesses and counterexamples -/

/-- Fixture for C1: one pending paper. -/
def c1Paper : Paper :=
  { id := 1, title := "Algebra 2020", description := none, exam_year := 2020,
    subject_id := 10, storage_key := "k1", file_hash := "h1",
    uploader_id := some 2, status := PStatus.pending, moderation_notes := none,
    download_count := 0, view_count := 0, created_at := 0, approved_at := none,
    tags := [] }

def c1DB : DB := ⟨[c1Paper], [], [], []⟩

/-- Fixture for C2: a database already holding hash "h1". -/
def c2Paper : Paper :=
  { id := 1, title := "Calculus 2019", description := some "midterm",
    exam_year := 2019, subject_id := 10, storage_key := "k1",
    file_hash := "h1", uploader_id := some 2, status := PStatus.approved,
    moderation_notes := none, download_count := 3, view_count := 7,
    created_at := 0, approved_at := some 1, tags := ["calculus"] }

def c2DB : DB := ⟨[c2Paper], [], [], []⟩

/-- Fixture for C2: a creation request reusing hash "h1". -/
def c2Create : PaperCreate :=
  { title := "Calculus again", description := none, exam_year := 2020,
    subject_id := 10, storage_key := "k2", file_hash := "h1",
    tags := [] }

/-- Fixture for C10: a pending paper that a non-uploader tries to rate. -/
def c10Paper : Paper :=
  { id := 1, title := "Physics 2021", description := none, exam_year := 2021,
    subject_id := 10, storage_key := "k1", file_hash := "h1",
    uploader_id := some 2, status := PStatus.pending, moderation_notes := none,
    download_count := 0, view_count := 0, created_at := 0, approved_at := none,
    tags := [] }

def c10DB : DB := ⟨[c10Paper], [], [], []⟩

/-- Fixture for C3: an approved paper with no ratings yet. -/
def c3Paper : Paper :=
  { id := 1, title := "Chemistry 2022", description := none, exam_year := 2022,
    subject_id := 10, storage_key := "k1", file_hash := "h1",
    uploader_id := some 2, status := PStatus.approved,
    moderation_notes := none, download_count := 0, view_count := 0,
    created_at := 0, approved_at := some 1, tags := [] }

def c3DB : DB := ⟨[c3Paper], [], [], []⟩

/-- Fixture for C6/C8: an empty taxonomy store. -/
def emptyEnv : TaxonomyEnv := ⟨[], [], [], [], []⟩

/-- Fixture for C8: an approved paper tagged only "algebra". -/
def c8Paper : Paper :=
  { id := 1, title := "Linear Algebra 2020", description := none,
    exam_year := 2020, subject_id := 10, storage_key := "k1",
    file_hash := "h1", uploader_id := some 2, status := PStatus.approved,
    moderation_notes := none, download_count := 0, view_count := 0,
    created_at := 0, approved_at := some 1, tags := ["algebra"] }

def c8DB : DB := ⟨[c8Paper], [], [], []⟩

/-- Fixture for C8: a search requesting both "algebra" and "calculus". -/
def c8Filters : PaperSearchFilters :=
  { university_id := none, program_id := none, branch_id := none,
    semester_id := none, subject_id := none, exam_year := none,
    tags := ["algebra", "calculus"], search := none, status := none,
    uploaded_by := none, academic_level := none, content_type := none,
    upload_date_range := none, university := none, subject := none,
    sort := some "created_at", order := some "desc" }

/-- Fixture for C6: one paper of each status, anonymous default search. -/
def c6Pending : Paper :=
  { id := 1, title := "P pending", description := none, exam_year := 2020,
    subject_id := 10, storage_key := "k1", file_hash := "h1",
    uploader_id := some 2, status := PStatus.pending, moderation_notes := none,
    download_count := 0, view_count := 0, created_at := 0, approved_at := none,
    tags := [] }

def c6Approved : Paper :=
  { id := 2, title := "P approved", description := none, exam_year := 2020,
    subject_id := 10, storage_key := "k2", file_hash := "h2",
    uploader_id := some 2, status := PStatus.approved,
    moderation_notes := none, download_count := 0, view_count := 0,
    created_at := 0, approved_at := some 1, tags := [] }

def c6Rejected : Paper :=
  { id := 3, title := "P rejected", description := none, exam_year := 2020,
    subject_id := 10, storage_key := "k3", file_hash := "h3",
    uploader_id := some 2, status := PStatus.rejected,
    moderation_notes := none, download_count := 0, view_count := 0,
    created_at := 0, approved_at := none, tags := [] }

def c6DB : DB := ⟨[c6Pending, c6Approved, c6Rejected], [], [], []⟩

/-- Fixture for C6: the no-filter search request. -/
def c6Filters : PaperSearchFilters :=
  { university_id := none, program_id := none, branch_id := none,
    semester_id := none, subject_id := none, exam_year := none,
    tags := [], search := none, status := none,
    uploaded_by := none, academic_level := none, content_type := none,
    upload_date_range := none, university := none, subject := none,
    sort := some "created_at", order := some "desc" }

/-- Fixture for C7: an approved paper, used with and without ratings. -/
def c7Paper : Paper :=
  { id := 1, title := "Stats sample", description := none, exam_year := 2020,
    subject_id := 10, storage_key := "k1", file_hash := "h1",
    uploader_id := some 2, status := PStatus.approved,
    moderation_notes := none, download_count := 0, view_count := 0,
    created_at := 0, approved_at := some 1, tags := [] }

def c7DB : DB := ⟨[c7Paper], [], [], []⟩

/-- Fixture for C7: the same paper with one rating of value 4. -/
def c7DBRated : DB :=
  ⟨[c7Paper], [{ id := 50, user_id := 7, paper_id := 1, rating := 4,
                 updated_at := none }], [], []⟩

/-- Fixture for C4: an open report against a pending paper. -/
def c4Paper : Paper :=
  { id := 5, title := "Reported paper", description := none, exam_year := 2020,
    subject_id := 10, storage_key := "k1", file_hash := "h1",
    uploader_id := some 2, status := PStatus.pending, moderation_notes := none,
    download_count := 0, view_count := 0, created_at := 0, approved_at := none,
    tags := [] }

def c4Report : Report :=
  { id := 1, paper_id := 5, reporter_id := 3, reason := "spam",
    details := none, status := RStatus.opened, resolved_by_id := none,
    resolved_at := none, admin_notes := none }

def c4DB : DB := ⟨[c4Paper], [], [c4Report], []⟩

/-- Fixtures for C5: one OPEN and one already-CLOSED report. -/
def c5Report1 : Report :=
  { id := 1, paper_id := 5, reporter_id := 3, reason := "spam",
    details := none, status := RStatus.opened, resolved_by_id := none,
    resolved_at := none, admin_notes := none }

def c5Report2 : Report :=
  { id := 2, paper_id := 5, reporter_id := 4, reason := "dup",
    details := none, status := RStatus.closed, resolved_by_id := some 8,
    resolved_at := some 1, admin_notes := some "done" }

def c5DB : DB := ⟨[], [], [c5Report1, c5Report2], []⟩

/-- The state c5DB reaches after bulk-dismissing reports 1 and 2. -/
def c5Report1Closed : Report :=
  { id := 1, paper_id := 5, reporter_id := 3, reason := "spam",
    details := none, status := RStatus.closed, resolved_by_id := some 9,
    resolved_at := some 5,
    admin_notes := some "Report dismissed - no violation found" }

def c5DBAfter : DB := ⟨[], [], [c5Report1Closed, c5Report2], []⟩

/-- Fixture for C9: a rejected paper with an open report against it. -/
def c9Paper : Paper :=
  { id := 1, title := "Rejected paper", description := none, exam_year := 2020,
    subject_id := 10, storage_key := "k1", file_hash := "h1",
    uploader_id := some 2, status := PStatus.rejected,
    moderation_notes := some "taken down", download_count := 0,
    view_count := 0, created_at := 0, approved_at := none, tags := [] }

def c9Report : Report :=
  { id := 1, paper_id := 1, reporter_id := 3, reason := "spam",
    details := none, status := RStatus.opened, resolved_by_id := none,
    resolved_at := none, admin_notes := none }

def c9DB : DB := ⟨[c9Paper], [], [c9Report], []⟩

/-- Fixture for C9: an attempted re-approve, a forced removal and a bulk
dismissal, in sequence. -/
def c9Ops : List AdminOp :=
  [AdminOp.moderateOp 1 "approve" none 9 5,
   AdminOp.resolveOp 1 "remove_paper" "" 9 6,
   AdminOp.bulkOp [1] "dismiss" "" 9 7]

/-! ### Generic list/replacement lemmas -/

theorem mem_insertBy {le : α → α → Bool} {a x : α} {l : List α} :
    a ∈ insertBy le x l ↔ a = x ∨ a ∈ l := by
  induction l with
  | nil => simp [insertBy]
  | cons b bs ih =>
    simp only [insertBy]
    split
    · simp [List.mem_cons]
    · simp only [List.mem_cons, ih]
      tauto

theorem mem_sortBy {le : α → α → Bool} {a : α} {l : List α} :
    a ∈ sortBy le l ↔ a ∈ l := by
  induction l with
  | nil => simp [sortBy]
  | cons b bs ih => simp [sortBy, mem_insertBy, ih]

theorem replacePaper_cons (a : Paper) (as : List Paper) (p : Paper) :
    replacePaper (a :: as) p =
      (if a.id == p.id then p else a) :: replacePaper as p := rfl

theorem paper_find_id {ps : List Paper} {pid : Nat} {p : Paper}
    (h : ps.find? (fun q => q.id == pid) = some p) : p.id = pid := by
  have := List.find?_some h
  simpa using this

theorem report_find_id {rs : List Report} {rid : Nat} {r : Report}
    (h : rs.find? (fun q => q.id == rid) = some r) : r.id = rid := by
  have := List.find?_some h
  simpa using this

theorem find?_replacePaper {ps : List Paper} {pid : Nat} {p p' : Paper}
    (h : ps.find? (fun q => q.id == pid) = some p) (hid : p'.id = pid) :
    (replacePaper ps p').find? (fun q => q.id == pid) = some p' := by
  induction ps with
  | nil => simp [List.find?] at h
  | cons a as ih =>
    rw [replacePaper_cons]
    by_cases ha : (a.id == pid) = true
    · have hae : a.id = pid := by simpa using ha
      have hcond : (a.id == p'.id) = true := by simp [hae, hid]
      rw [if_pos hcond]
      have : (p'.id == pid) = true := by simp [hid]
      simp [List.find?, this]
    · have hcond : ¬ ((a.id == p'.id) = true) := by
        simp only [beq_iff_eq, hid] at ha ⊢
        exact ha
      rw [if_neg hcond]
      have hfa : (a.id == pid) = false := by
        simpa using ha
      simp only [List.find?_cons, hfa] at h
      simp only [List.find?_cons, hfa]
      exact ih h

theorem mem_replacePaper {ps : List Paper} {p' q : Paper}
    (hq : q ∈ replacePaper ps p') :
    q = p' ∨ (q ∈ ps ∧ ¬ (q.id = p'.id)) := by
  unfold replacePaper at hq
  rcases List.mem_map.1 hq with ⟨a, ha, hfa⟩
  by_cases h : (a.id == p'.id) = true
  · left
    rw [if_pos h] at hfa
    exact hfa.symm
  · right
    rw [if_neg h] at hfa
    subst hfa
    refine ⟨ha, ?_⟩
    simpa using h

theorem mem_replaceReport_of_ne {rs : List Report} {r2 r0 : Report}
    (h0 : r0 ∈ rs) (hne : ¬ (r0.id = r2.id)) :
    r0 ∈ replaceReport rs r2 := by
  unfold replaceReport
  refine List.mem_map.2 ⟨r0, h0, ?_⟩
  rw [if_neg]
  simpa using hne

theorem replaceRating_append (l1 l2 : List Rating) (r : Rating) :
    replaceRating (l1 ++ l2) r = replaceRating l1 r ++ replaceRating l2 r := by
  simp [replaceRating]

theorem replaceRating_of_fresh {rs : List Rating} {r2 : Rating}
    (h : ∀ r ∈ rs, ¬ (r.id = r2.id)) : replaceRating rs r2 = rs := by
  induction rs with
  | nil => rfl
  | cons a as ih =>
    have ha : ¬ ((a.id == r2.id) = true) := by
      simpa using h a (List.mem_cons_self a as)
    simp only [replaceRating, List.map_cons, if_neg ha]
    have := ih (fun r hr => h r (List.mem_cons_of_mem a hr))
    simpa [replaceRating] using this

theorem find?_append_none {l1 l2 : List α} {p : α → Bool}
    (h : l1.find? p = none) : (l1 ++ l2).find? p = l2.find? p := by
  induction l1 with
  | nil => simp
  | cons a as ih =>
    have ha : p a = false := by
      cases hpa : p a
      · rfl
      · rw [List.find?_cons, hpa] at h
        exact Option.noConfusion h
    rw [List.find?_cons, ha] at h
    rw [List.cons_append, List.find?_cons]
    rw [ha]
    exact ih h

theorem roundHalfEvenDiv_one (a : Int) : roundHalfEvenDiv a 1 = a := by
  simp [roundHalfEvenDiv, Int.fdiv_one]


/-! ### C1: approve from PENDING, then InvalidTransition without force -/

/-- C1: For every document whose status is PENDING, moderating it with
action=approve sets its status to APPROVED and sets a non-null approved_at
timestamp; a subsequent moderation of the same document without force fails
with InvalidTransition (the service's
`ValidationError("Only pending papers can be moderated")`) and leaves the
document's status unchanged. -/
theorem approve_sets_approved_then_invalid_transition
    (db : DB) (pid : Nat) (p : Paper) (notes : Option String) (mid : Nat)
    (t : Int)
    (hfind : db.papers.find? (fun q => q.id == pid) = some p)
    (hpend : p.status = PStatus.pending) :
    ∃ db' p',
      moderate_paper db pid "approve" notes mid false t = .ok (db', p') ∧
      p'.status = PStatus.approved ∧
      p'.approved_at = some t ∧
      (∀ action2 notes2 mid2 t2,
        moderate_paper db' pid action2 notes2 mid2 false t2 =
          .error (.validationError "Only pending papers can be moderated")) ∧
      (∀ action2 notes2 mid2 t2,
        runModerate db' pid action2 notes2 mid2 false t2 = db') := by
  have hid : p.id = pid := paper_find_id hfind
  have hOK : moderate_paper db pid "approve" notes mid false t = .ok ({ db with papers := replacePaper db.papers { p with status := PStatus.approved, approved_at := some t, moderation_notes := notes } }, { p with status := PStatus.approved, approved_at := some t, moderation_notes := notes }) := by
    simp [moderate_paper, hfind, hpend]
  have hfind2 : (replacePaper db.papers { p with status := PStatus.approved, approved_at := some t, moderation_notes := notes }).find? (fun q => q.id == pid) = some { p with status := PStatus.approved, approved_at := some t, moderation_notes := notes } :=
    find?_replacePaper hfind (by simpa using hid)
  have herr : ∀ action2 notes2 mid2 t2, moderate_paper { db with papers := replacePaper db.papers { p with status := PStatus.approved, approved_at := some t, moderation_notes := notes } } pid action2 notes2 mid2 false t2 = .error (.validationError "Only pending papers can be moderated") := by
    intro action2 notes2 mid2 t2
    simp [moderate_paper, hfind2]
  refine ⟨_, _, hOK, rfl, rfl, herr, ?_⟩
  intro action2 notes2 mid2 t2
  simp [runModerate, herr action2 notes2 mid2 t2]

/-- Witness for C1 at a concrete database. -/
theorem approve_sets_approved_then_invalid_transition_witness :
    ∃ db' p',
      moderate_paper c1DB 1 "approve" (some "ok") 9 false 5 = .ok (db', p') ∧
      p'.status = PStatus.approved ∧
      p'.approved_at = some 5 ∧
      (∀ action2 notes2 mid2 t2,
        moderate_paper db' 1 action2 notes2 mid2 false t2 =
          .error (.validationError "Only pending papers can be moderated")) ∧
      (∀ action2 notes2 mid2 t2,
        runModerate db' 1 action2 notes2 mid2 false t2 = db') :=
  approve_sets_approved_then_invalid_transition c1DB 1 c1Paper (some "ok") 9 5
    (by decide) (by decide)

/-! ### C2: duplicate file hash rejected, state unchanged -/

/-- C2: For every existing document of the Paper kind, creating a second
document of that kind with the same file_hash fails with DuplicateContent
(`DuplicateFileError`), and the stored state is unchanged by the failed
creation: no new document row is added and the first document's fields are
untouched. -/
theorem create_paper_duplicate_hash_rejected
    (db : DB) (pd : PaperCreate) (uploaderId : Nat) (subjectIds : List Nat)
    (storageKeys : List String) (newId : Nat) (now : Int) (p0 : Paper)
    (hp0 : p0 ∈ db.papers) (hhash : p0.file_hash = pd.file_hash) :
    create_paper db pd uploaderId subjectIds storageKeys newId now =
      .error .duplicateFile ∧
    runCreate db pd uploaderId subjectIds storageKeys newId now = db := by
  have hsome : (db.papers.find?
      (fun p => p.file_hash == pd.file_hash)).isSome := by
    rw [List.find?_isSome]
    exact ⟨p0, hp0, by simp [hhash]⟩
  constructor
  · simp [create_paper, hsome]
  · simp [runCreate, create_paper, hsome]

/-- Witness for C2 at a concrete database. -/
theorem create_paper_duplicate_hash_rejected_witness :
    create_paper c2DB c2Create 3 [10] ["k2"] 2 4 = .error .duplicateFile ∧
    runCreate c2DB c2Create 3 [10] ["k2"] 2 4 = c2DB :=
  create_paper_duplicate_hash_rejected c2DB c2Create 3 [10] ["k2"] 2 4 c2Paper
    (by decide) (by decide)

/-! ### C10: rating a non-APPROVED document is a not-found error -/

/-- C10: For every document that exists but whose status is PENDING or
REJECTED (i.e. not APPROVED), a rate request by any user fails with
`PaperNotFoundError` (the document is treated as absent), and no Rating row
is created or updated. -/
theorem rate_paper_not_approved_not_found
    (db : DB) (pid uid value newId : Nat) (now : Int) (p0 : Paper)
    (hp0 : p0 ∈ db.papers) (hp0id : p0.id = pid)
    (hnot : ∀ p ∈ db.papers, p.id = pid → ¬ p.status = PStatus.approved) :
    rate_paper db pid uid value newId now = .error .paperNotFound ∧
    runRate db pid uid value newId now = db := by
  have hnone : db.papers.find?
      (fun p => p.id == pid && p.status == PStatus.approved) = none := by
    rw [List.find?_eq_none]
    intro p hp
    simp only [Bool.and_eq_true, beq_iff_eq, not_and]
    exact fun h1 h2 => hnot p hp h1 h2
  constructor
  · simp [rate_paper, hnone]
  · simp [runRate, rate_paper, hnone]

/-- Witness for C10 at a concrete database. -/
theorem rate_paper_not_approved_not_found_witness :
    rate_paper c10DB 1 3 5 100 7 = .error .paperNotFound ∧
    runRate c10DB 1 3 5 100 7 = c10DB :=
  rate_paper_not_approved_not_found c10DB 1 3 5 100 7 c10Paper
    (by decide) (by decide) (by decide)

/-! ### C3: rating upsert keeps a single row per (user, document) -/

/-- C3: Rating a document the user has already rated updates the existing
row's value and timestamp rather than inserting a new row: rating with value
v1 and then v2 leaves exactly one Rating row for the (user, document) pair,
holding v2, and Stats then reports count 1 and average equal to the latest
value. -/
theorem rate_paper_upserts_single_row
    (db : DB) (pid uid v1 v2 newId : Nat) (t1 t2 : Int) (paper : Paper)
    (hfind : db.papers.find? (fun p => p.id == pid && p.status == PStatus.approved) = some paper)
    (hself : ¬ paper.uploader_id = some uid)
    (hnone : ∀ r ∈ db.ratings, ¬ r.paper_id = pid)
    (hfresh : ∀ r ∈ db.ratings, ¬ r.id = newId) :
    ∃ db1 r1 db2 r2,
      rate_paper db pid uid v1 newId t1 = .ok (db1, r1) ∧
      rate_paper db1 pid uid v2 newId t2 = .ok (db2, r2) ∧
      r2.id = r1.id ∧ r2.rating = v2 ∧ r2.updated_at = some t2 ∧
      db2.ratings.filter (fun r => r.user_id == uid && r.paper_id == pid) = [r2] ∧
      db2.ratings.filter (fun r => r.paper_id == pid) = [r2] ∧
      ∃ s, get_paper_rating_stats db2 pid = .ok s ∧
        s.total_ratings = 1 ∧ s.average_cents = some (100 * (v2 : Int)) := by
  have hselfb : (paper.uploader_id == some uid) = false := by simpa using hself
  have hnof : db.ratings.find? (fun r => r.user_id == uid && r.paper_id == pid) = none := by
    rw [List.find?_eq_none]
    intro r hr
    simp only [Bool.and_eq_true, beq_iff_eq, not_and]
    exact fun _ h2 => hnone r hr h2
  have h1 : rate_paper db pid uid v1 newId t1 = .ok ({ db with ratings := db.ratings ++ [{ id := newId, user_id := uid, paper_id := pid, rating := v1, updated_at := none }] }, { id := newId, user_id := uid, paper_id := pid, rating := v1, updated_at := none }) := by
    simp [rate_paper, hfind, hselfb, hnof]
  have hfound1 : (db.ratings ++ [({ id := newId, user_id := uid, paper_id := pid, rating := v1, updated_at := none } : Rating)]).find? (fun r => r.user_id == uid && r.paper_id == pid) = some { id := newId, user_id := uid, paper_id := pid, rating := v1, updated_at := none } := by
    rw [find?_append_none hnof]
    simp [List.find?]
  have hrepl : replaceRating (db.ratings ++ [({ id := newId, user_id := uid, paper_id := pid, rating := v1, updated_at := none } : Rating)]) { id := newId, user_id := uid, paper_id := pid, rating := v2, updated_at := some t2 } = db.ratings ++ [{ id := newId, user_id := uid, paper_id := pid, rating := v2, updated_at := some t2 }] := by
    rw [replaceRating_append]
    rw [replaceRating_of_fresh (fun r hr => hfresh r hr)]
    simp [replaceRating]
  have h2 : rate_paper { db with ratings := db.ratings ++ [{ id := newId, user_id := uid, paper_id := pid, rating := v1, updated_at := none }] } pid uid v2 newId t2 = .ok ({ db with ratings := db.ratings ++ [{ id := newId, user_id := uid, paper_id := pid, rating := v2, updated_at := some t2 }] }, { id := newId, user_id := uid, paper_id := pid, rating := v2, updated_at := some t2 }) := by
    simp only [rate_paper]
    rw [show ({ db with ratings := db.ratings ++ [{ id := newId, user_id := uid, paper_id := pid, rating := v1, updated_at := none }] } : DB).papers = db.papers from rfl]
    rw [hfind]
    simp [hselfb, hfound1, hrepl]
  have hfilterNil : db.ratings.filter (fun r => r.paper_id == pid) = [] := by
    rw [List.filter_eq_nil_iff]
    intro r hr
    simpa using hnone r hr
  have hfilterNil2 : db.ratings.filter (fun r => r.user_id == uid && r.paper_id == pid) = [] := by
    rw [List.filter_eq_nil_iff]
    intro r hr
    simp only [Bool.and_eq_true, beq_iff_eq, not_and]
    exact fun _ h2 => hnone r hr h2
  have hfilt1 : (db.ratings ++ [({ id := newId, user_id := uid, paper_id := pid, rating := v2, updated_at := some t2 } : Rating)]).filter (fun r => r.user_id == uid && r.paper_id == pid) = [{ id := newId, user_id := uid, paper_id := pid, rating := v2, updated_at := some t2 }] := by
    rw [List.filter_append, hfilterNil2]
    simp
  have hfilt2 : (db.ratings ++ [({ id := newId, user_id := uid, paper_id := pid, rating := v2, updated_at := some t2 } : Rating)]).filter (fun r => r.paper_id == pid) = [{ id := newId, user_id := uid, paper_id := pid, rating := v2, updated_at := some t2 }] := by
    rw [List.filter_append, hfilterNil]
    simp
  have hpexists : (db.papers.find? (fun p => p.id == pid)).isSome := by
    rw [List.find?_isSome]
    have hmem := List.mem_of_find?_eq_some hfind
    have hpred := List.find?_some hfind
    simp only [Bool.and_eq_true, beq_iff_eq] at hpred
    exact ⟨paper, hmem, by simp [hpred.1]⟩
  obtain ⟨q, hq⟩ := Option.isSome_iff_exists.1 hpexists
  refine ⟨_, _, _, _, h1, h2, rfl, rfl, rfl, hfilt1, hfilt2, ?_⟩
  simp [get_paper_rating_stats, hq, hfilt2, roundHalfEvenDiv_one]

/-- Witness for C3 at a concrete database: rate 3 then 5. -/
theorem rate_paper_upserts_single_row_witness :
    ∃ db1 r1 db2 r2,
      rate_paper c3DB 1 7 3 50 10 = .ok (db1, r1) ∧
      rate_paper db1 1 7 5 50 11 = .ok (db2, r2) ∧
      r2.id = r1.id ∧ r2.rating = 5 ∧ r2.updated_at = some 11 ∧
      db2.ratings.filter (fun r => r.user_id == 7 && r.paper_id == 1) = [r2] ∧
      db2.ratings.filter (fun r => r.paper_id == 1) = [r2] ∧
      ∃ s, get_paper_rating_stats db2 1 = .ok s ∧
        s.total_ratings = 1 ∧ s.average_cents = some (100 * (5 : Int)) :=
  rate_paper_upserts_single_row c3DB 1 7 3 5 50 10 11 c3Paper
    (by decide) (by decide) (by decide) (by decide)

/-! ### Search stage lemmas -/

theorem taxIdsStage_subset (env : TaxonomyEnv) (filters : PaperSearchFilters)
    (ps : List Paper) : ∀ p ∈ taxIdsStage env filters ps, p ∈ ps := by
  intro p hp
  unfold taxIdsStage at hp
  split at hp
  · exact List.mem_of_mem_filter hp
  · exact hp

theorem subjectIdStage_subset (filters : PaperSearchFilters)
    (ps : List Paper) : ∀ p ∈ subjectIdStage filters ps, p ∈ ps := by
  intro p hp
  unfold subjectIdStage at hp
  split at hp
  · exact List.mem_of_mem_filter hp
  · exact hp

theorem examYearStage_subset (filters : PaperSearchFilters)
    (ps : List Paper) : ∀ p ∈ examYearStage filters ps, p ∈ ps := by
  intro p hp
  unfold examYearStage at hp
  split at hp
  · exact List.mem_of_mem_filter hp
  · exact hp

theorem tagsStage_subset (filters : PaperSearchFilters)
    (ps : List Paper) : ∀ p ∈ tagsStage filters ps, p ∈ ps := by
  intro p hp
  unfold tagsStage at hp
  split at hp
  · exact hp
  · exact List.mem_of_mem_filter hp

theorem searchTextStage_subset (filters : PaperSearchFilters)
    (ps : List Paper) : ∀ p ∈ searchTextStage filters ps, p ∈ ps := by
  intro p hp
  unfold searchTextStage at hp
  split at hp
  · exact List.mem_of_mem_filter hp
  · exact hp

theorem joinGuardStage_subset (env : TaxonomyEnv)
    (filters : PaperSearchFilters) (ps : List Paper) :
    ∀ p ∈ joinGuardStage env filters ps, p ∈ ps := by
  intro p hp
  unfold joinGuardStage at hp
  split at hp
  · exact List.mem_of_mem_filter hp
  · split at hp
    · exact List.mem_of_mem_filter hp
    · exact hp

theorem universityStage_subset (env : TaxonomyEnv)
    (filters : PaperSearchFilters) (ps : List Paper) :
    ∀ p ∈ universityStage env filters ps, p ∈ ps := by
  intro p hp
  unfold universityStage at hp
  split at hp
  · exact List.mem_of_mem_filter hp
  · exact hp

theorem subjectNameStage_subset (env : TaxonomyEnv)
    (filters : PaperSearchFilters) (ps : List Paper) :
    ∀ p ∈ subjectNameStage env filters ps, p ∈ ps := by
  intro p hp
  unfold subjectNameStage at hp
  split at hp
  · exact List.mem_of_mem_filter hp
  · exact hp

theorem academicLevelStage_subset (env : TaxonomyEnv)
    (filters : PaperSearchFilters) (ps : List Paper) :
    ∀ p ∈ academicLevelStage env filters ps, p ∈ ps := by
  intro p hp
  unfold academicLevelStage at hp
  split at hp
  · exact List.mem_of_mem_filter hp
  · split at hp
    · exact List.mem_of_mem_filter hp
    · exact hp

theorem dateRangeStage_subset (filters : PaperSearchFilters) (now : Int)
    (ps : List Paper) : ∀ p ∈ dateRangeStage filters now ps, p ∈ ps := by
  intro p hp
  simp only [dateRangeStage] at hp
  repeat' split at hp
  all_goals first
    | exact List.mem_of_mem_filter hp
    | exact hp

theorem searchFiltered_subset_status (db : DB) (env : TaxonomyEnv)
    (filters : PaperSearchFilters) (user : Option User) (now : Int) :
    ∀ p ∈ searchFiltered db env filters user now,
      p ∈ statusStage db.papers filters user := by
  intro p hp
  unfold searchFiltered at hp
  have h1 := dateRangeStage_subset _ _ _ p hp
  have h2 := academicLevelStage_subset _ _ _ p h1
  have h3 := subjectNameStage_subset _ _ _ p h2
  have h4 := universityStage_subset _ _ _ p h3
  have h5 := joinGuardStage_subset _ _ _ p h4
  have h6 := searchTextStage_subset _ _ p h5
  have h7 := tagsStage_subset _ _ p h6
  have h8 := examYearStage_subset _ _ p h7
  have h9 := subjectIdStage_subset _ _ p h8
  exact taxIdsStage_subset _ _ _ p h9

theorem statusStage_approved (papers : List Paper)
    (filters : PaperSearchFilters) (user : Option User)
    (hU : ∀ u, user = some u → ¬ u.role = Role.admin)
    (hMe : ¬ filters.uploaded_by = some "me") :
    ∀ p ∈ statusStage papers filters user, p.status = PStatus.approved := by
  intro p hp
  cases user with
  | none =>
    simp only [statusStage] at hp
    exact (by simpa using (List.mem_filter.1 hp).2)
  | some u =>
    have hrole : (u.role == Role.admin) = false := by
      simpa using hU u rfl
    have hMe' : (filters.uploaded_by == some "me") = false := by
      simpa using hMe
    simp only [statusStage, hMe', hrole] at hp
    simp only [Bool.false_eq_true, if_false, Bool.not_false, if_true] at hp
    exact (by simpa using (List.mem_filter.1 hp).2)

/-! ### C6: default search exposes only APPROVED documents -/

/-- C6: For every search request issued with no viewer (anonymous) or a
non-admin viewer and no explicit owned-document filter (`uploaded_by = "me"`),
every document in the result list has status APPROVED; no PENDING or REJECTED
document is ever returned. -/
theorem search_default_only_approved
    (db : DB) (env : TaxonomyEnv) (filters : PaperSearchFilters)
    (page page_size : Nat) (user : Option User) (now : Int)
    (hU : ∀ u, user = some u → ¬ u.role = Role.admin)
    (hMe : ¬ filters.uploaded_by = some "me") :
    ∀ p ∈ (search_papers db env filters page page_size user now).items,
      p.status = PStatus.approved := by
  intro p hp
  simp only [search_papers] at hp
  have h1 : p ∈ sortBy (paperLe db filters)
      (searchFiltered db env filters user now) :=
    List.drop_subset _ _ (List.take_subset _ _ hp)
  have h2 : p ∈ searchFiltered db env filters user now := mem_sortBy.1 h1
  have h3 := searchFiltered_subset_status db env filters user now p h2
  exact statusStage_approved db.papers filters user hU hMe p h3

/-- Witness for C6: anonymous search over a database holding one paper of
each status. -/
theorem search_default_only_approved_witness :
    (∀ u, (none : Option User) = some u → ¬ u.role = Role.admin) ∧
    ¬ c6Filters.uploaded_by = some "me" ∧
    (∀ p ∈ (search_papers c6DB emptyEnv c6Filters 1 20 none 0).items,
      p.status = PStatus.approved) :=
  ⟨fun u h => Option.noConfusion h, by decide,
    search_default_only_approved c6DB emptyEnv c6Filters 1 20 none 0
      (fun u h => Option.noConfusion h) (by decide)⟩

/-! ### C8: tag filter has OR semantics, not AND -/

/-- C8 counterexample: a paper carrying only "algebra" is returned by a
search that lists tags ["algebra", "calculus"], although it lacks "calculus";
so the tag filter does not require every listed tag. -/
theorem search_tags_not_all_required :
    c8Paper ∈ (search_papers c8DB emptyEnv c8Filters 1 20 none 0).items ∧
    ¬ "calculus" ∈ c8Paper.tags := by decide

/-- C8 amended: when a search request carries a non-empty tag list, the tag
filter has OR semantics (`Tag.name.in_`): every returned document carries at
least one of the listed tags; a document possessing only some of the listed
tags is still returned. -/
theorem search_tags_any_semantics
    (db : DB) (env : TaxonomyEnv) (filters : PaperSearchFilters)
    (page page_size : Nat) (user : Option User) (now : Int)
    (hTags : ¬ filters.tags = []) :
    ∀ p ∈ (search_papers db env filters page page_size user now).items,
      p.tags.any (fun t => filters.tags.contains t) = true := by
  intro p hp
  simp only [search_papers] at hp
  have h1 : p ∈ sortBy (paperLe db filters)
      (searchFiltered db env filters user now) :=
    List.drop_subset _ _ (List.take_subset _ _ hp)
  have h2 : p ∈ searchFiltered db env filters user now := mem_sortBy.1 h1
  unfold searchFiltered at h2
  have h3 := dateRangeStage_subset _ _ _ p h2
  have h4 := academicLevelStage_subset _ _ _ p h3
  have h5 := subjectNameStage_subset _ _ _ p h4
  have h6 := universityStage_subset _ _ _ p h5
  have h7 := joinGuardStage_subset _ _ _ p h6
  have h8 := searchTextStage_subset _ _ p h7
  have hEmpty : filters.tags.isEmpty = false := by
    cases h : filters.tags with
    | nil => exact absurd h hTags
    | cons a as => rfl
  unfold tagsStage at h8
  rw [hEmpty] at h8
  simp only [Bool.false_eq_true, if_false] at h8
  exact (List.mem_filter.1 h8).2

/-- Witness for C8 amended at the concrete counterexample database. -/
theorem search_tags_any_semantics_witness :
    ¬ c8Filters.tags = [] ∧
    (∀ p ∈ (search_papers c8DB emptyEnv c8Filters 1 20 none 0).items,
      p.tags.any (fun t => c8Filters.tags.contains t) = true) :=
  ⟨by decide,
    search_tags_any_semantics c8DB emptyEnv c8Filters 1 20 none 0 (by decide)⟩

/-! ### C7: stats shape; the empty average is 0.0, not null -/

/-- C7 counterexample: for a document with zero ratings,
`get_paper_rating_stats` reports `average_rating = 0.0` (a number, not null),
so the claim "the average is undefined (null) whenever the rating count is 0"
fails on the Stats operation; only the per-document rating-info helper
reports null. -/
theorem rating_stats_empty_average_not_null :
    get_paper_rating_stats c7DB 1 = .ok ⟨0, some 0, 0, 0, 0, 0, 0⟩ ∧
    ¬ (⟨0, some 0, 0, 0, 0, 0, 0⟩ : RatingStats).average_cents = none ∧
    (calculate_paper_rating_info c7DB 1 none).average_cents = none := by
  refine ⟨rfl, ?_, rfl⟩
  simp

/-- C7 amended: Stats for an existing document returns the rating count and
the average rounded to 2 decimals (here in hundredths); when the count is 0
the Stats endpoint reports average 0.0 (not null), while the per-document
rating-info helper `_calculate_paper_rating_info` reports null. -/
theorem rating_stats_zero_and_rounded_average
    (db : DB) (pid : Nat) (q : Paper)
    (hq : db.papers.find? (fun p => p.id == pid) = some q) :
    get_paper_rating_stats db pid = .ok
      ⟨(db.ratings.filter (fun r => r.paper_id == pid)).length,
       (if (db.ratings.filter (fun r => r.paper_id == pid)).isEmpty then some 0
        else some (roundHalfEvenDiv
          (100 * ((((db.ratings.filter (fun r => r.paper_id == pid)).map
              (fun r => r.rating)).sum : Nat) : Int))
          (db.ratings.filter (fun r => r.paper_id == pid)).length)),
       (db.ratings.filter (fun r => r.paper_id == pid)).countP
         (fun r => r.rating == 1),
       (db.ratings.filter (fun r => r.paper_id == pid)).countP
         (fun r => r.rating == 2),
       (db.ratings.filter (fun r => r.paper_id == pid)).countP
         (fun r => r.rating == 3),
       (db.ratings.filter (fun r => r.paper_id == pid)).countP
         (fun r => r.rating == 4),
       (db.ratings.filter (fun r => r.paper_id == pid)).countP
         (fun r => r.rating == 5)⟩ ∧
    (calculate_paper_rating_info db pid none).average_cents =
      (if (db.ratings.filter (fun r => r.paper_id == pid)).isEmpty then none
       else some (roundHalfEvenDiv
         (100 * ((((db.ratings.filter (fun r => r.paper_id == pid)).map
             (fun r => r.rating)).sum : Nat) : Int))
         (db.ratings.filter (fun r => r.paper_id == pid)).length)) := by
  cases hE : (db.ratings.filter (fun r => r.paper_id == pid)).isEmpty with
  | true =>
    have hnil : db.ratings.filter (fun r => r.paper_id == pid) = [] := by
      simpa [List.isEmpty_iff] using hE
    constructor
    · simp [get_paper_rating_stats, hq, hnil]
    · simp [calculate_paper_rating_info, hnil]
  | false =>
    constructor
    · simp [get_paper_rating_stats, hq, hE, Function.comp_def]
    · simp [calculate_paper_rating_info, hE, Function.comp_def]

/-- Witness for C7 amended at a concrete rated database. -/
theorem rating_stats_zero_and_rounded_average_witness :
    get_paper_rating_stats c7DBRated 1 = .ok
      ⟨(c7DBRated.ratings.filter (fun r => r.paper_id == 1)).length,
       (if (c7DBRated.ratings.filter (fun r => r.paper_id == 1)).isEmpty
        then some 0
        else some (roundHalfEvenDiv
          (100 * ((((c7DBRated.ratings.filter (fun r => r.paper_id == 1)).map
              (fun r => r.rating)).sum : Nat) : Int))
          (c7DBRated.ratings.filter (fun r => r.paper_id == 1)).length)),
       (c7DBRated.ratings.filter (fun r => r.paper_id == 1)).countP
         (fun r => r.rating == 1),
       (c7DBRated.ratings.filter (fun r => r.paper_id == 1)).countP
         (fun r => r.rating == 2),
       (c7DBRated.ratings.filter (fun r => r.paper_id == 1)).countP
         (fun r => r.rating == 3),
       (c7DBRated.ratings.filter (fun r => r.paper_id == 1)).countP
         (fun r => r.rating == 4),
       (c7DBRated.ratings.filter (fun r => r.paper_id == 1)).countP
         (fun r => r.rating == 5)⟩ ∧
    (calculate_paper_rating_info c7DBRated 1 none).average_cents =
      (if (c7DBRated.ratings.filter (fun r => r.paper_id == 1)).isEmpty
       then none
       else some (roundHalfEvenDiv
         (100 * ((((c7DBRated.ratings.filter (fun r => r.paper_id == 1)).map
             (fun r => r.rating)).sum : Nat) : Int))
         (c7DBRated.ratings.filter (fun r => r.paper_id == 1)).length)) :=
  rating_stats_zero_and_rounded_average c7DBRated 1 c7Paper (by decide)

/-! ### C4: report resolution with the remove action -/

theorem moderate_force_reject_ok
    (db : DB) (pid : Nat) (paper : Paper) (notes : Option String) (mid : Nat)
    (t : Int)
    (hfind : db.papers.find? (fun q => q.id == pid) = some paper) :
    moderate_paper db pid "reject" notes mid true t = .ok ({ db with papers := replacePaper db.papers { paper with status := PStatus.rejected, moderation_notes := notes } }, { paper with status := PStatus.rejected, moderation_notes := notes }) := by
  simp [moderate_paper, hfind]

/-- Every status notification appends exactly one row for the given user. -/
theorem create_paper_status_notification_spec (db : DB) (uid : Nat)
    (title status admin_notes : String) (pid : Option Nat) :
    ∃ n, create_paper_status_notification db uid title status admin_notes pid =
      { db with notifications := db.notifications ++ [n] } ∧ n.user_id = uid :=
  ⟨_, rfl, rfl⟩

/-- C4: Resolving an OPEN report with the remove action (`remove_paper`)
always leaves the reported document at status REJECTED, regardless of its
prior status (PENDING or APPROVED, and even REJECTED), and exactly one
notification dispatch to the uploader is attempted. -/
theorem resolve_report_remove_rejects_and_notifies
    (db : DB) (rid : Nat) (notes : String) (resolverId : Nat) (now : Int)
    (report : Report) (paper : Paper) (uid : Nat)
    (hrep : db.reports.find? (fun r => r.id == rid) = some report)
    (hopen : report.status = RStatus.opened)
    (hpaper : db.papers.find? (fun p => p.id == report.paper_id) = some paper)
    (hupl : paper.uploader_id = some uid) :
    ∃ db' res,
      resolve_report db rid "remove_paper" notes resolverId now =
        .ok (db', res) ∧
      (∀ q ∈ db'.papers, q.id = report.paper_id →
        q.status = PStatus.rejected) ∧
      (∃ n, db'.notifications = db.notifications ++ [n] ∧ n.user_id = uid) ∧
      res.paper_action_taken = some "paper_removed" := by
  have hno : (report.status == RStatus.closed) = false := by simp [hopen]
  have hpid : paper.id = report.paper_id := paper_find_id hpaper
  refine ⟨create_paper_status_notification { db with reports := replaceReport db.reports { report with status := RStatus.closed, resolved_by_id := some resolverId, resolved_at := some now, admin_notes := some (if notes == "" then "Paper removed due to report: " ++ report.reason else notes) }, papers := replacePaper db.papers { paper with status := PStatus.rejected, moderation_notes := some ("Paper removed due to report: " ++ report.reason ++ ". Admin notes: " ++ notes) } } uid paper.title "rejected" ("Paper removed due to report: " ++ report.reason ++ ". " ++ notes) (some paper.id), ⟨report.id, "remove_paper", some "paper_removed", RStatus.closed⟩, ?_, ?_, ?_, rfl⟩
  · simp only [resolve_report, hrep, hno, moderate_paper, hpaper, hupl]
    simp [create_paper_status_notification]
  · intro q hq hqid
    rcases mem_replacePaper hq with h | ⟨hmem, hne⟩
    · rw [h]
    · exact absurd (hqid.trans hpid.symm) hne
  · exact ⟨_, rfl, rfl⟩

/-- Witness for C4 at a concrete database. -/
theorem resolve_report_remove_rejects_and_notifies_witness :
    ∃ db' res,
      resolve_report c4DB 1 "remove_paper" "bad" 9 7 = .ok (db', res) ∧
      (∀ q ∈ db'.papers, q.id = c4Report.paper_id →
        q.status = PStatus.rejected) ∧
      (∃ n, db'.notifications = c4DB.notifications ++ [n] ∧ n.user_id = 2) ∧
      res.paper_action_taken = some "paper_removed" :=
  resolve_report_remove_rejects_and_notifies c4DB 1 "bad" 9 7 c4Report c4Paper
    2 (by decide) (by decide) (by decide) (by decide)

/-! ### C5: bulk resolution counts exactly the previously-OPEN reports -/

/-- A successful moderation only rewrites the papers table. -/
theorem moderate_ok_components {db : DB} {pid : Nat} {a : String}
    {n : Option String} {mid : Nat} {f : Bool} {t : Int} {db2 : DB}
    {p2 : Paper}
    (h : moderate_paper db pid a n mid f t = .ok (db2, p2)) :
    db2 = { db with papers := replacePaper db.papers p2 } := by
  unfold moderate_paper at h
  repeat' split at h
  all_goals simp only [Except.ok.injEq, Prod.mk.injEq, reduceCtorEq] at h
  all_goals obtain ⟨hdb, hp⟩ := h
  all_goals subst hp
  all_goals exact hdb.symm

/-- Notifications do not touch the reports table. -/
theorem create_paper_status_notification_reports (db : DB) (uid : Nat)
    (a b c : String) (pid : Option Nat) :
    (create_paper_status_notification db uid a b c pid).reports =
      db.reports := rfl

theorem create_warning_notification_reports (db : DB) (uid : Nat)
    (a b c : String) (pid rid : Option Nat) :
    (create_warning_notification db uid a b c pid rid).reports =
      db.reports := rfl

/-- Loop invariant of `bulk_resolve_go`: on success, the resolved counter
grows by exactly the number of OPEN reports in the processed list, and any
report row whose id is named by none of the processed OPEN reports survives
unchanged. -/
theorem bulk_go_spec (action notes : String) (resolverId : Nat) (now : Int)
    (r0 : Report) (rs : List Report) :
    ∀ (db : DB) (resolved pa wi : Nat) (out : DB × Nat × Nat × Nat),
      bulk_resolve_go db rs action notes resolverId now resolved pa wi =
        .ok out →
      out.2.1 = resolved +
        (rs.filter (fun r => r.status == RStatus.opened)).length ∧
      (r0 ∈ db.reports →
        (∀ r ∈ rs, (r.status == RStatus.opened) = true → ¬ r.id = r0.id) →
        r0 ∈ out.1.reports) := by
  induction rs with
  | nil =>
    intro db resolved pa wi out h
    simp only [bulk_resolve_go, Except.ok.injEq] at h
    subst h
    exact ⟨by simp, fun h0 _ => h0⟩
  | cons r rest ih =>
    intro db resolved pa wi out h
    simp only [bulk_resolve_go] at h
    by_cases hr : (r.status == RStatus.opened) = true
    · rw [if_pos hr] at h
      have hfin : ∀ m, m = resolved + 1 +
          (rest.filter (fun x => x.status == RStatus.opened)).length →
          m = resolved +
            ((r :: rest).filter (fun x => x.status == RStatus.opened)).length := by
        intro m hm
        rw [hm, List.filter_cons]
        simp [hr]
        omega
      have hstep : ∀ (r2 : Report), r2.id = r.id → r0 ∈ db.reports →
          (∀ x ∈ r :: rest, (x.status == RStatus.opened) = true →
            ¬ x.id = r0.id) →
          r0 ∈ replaceReport db.reports r2 := by
        intro r2 hid h0 hne
        exact mem_replaceReport_of_ne h0
          (fun hc => hne r (List.mem_cons_self r rest) hr ((hc.trans hid).symm))
      by_cases ha1 : (action == "dismiss") = true
      · rw [if_pos ha1] at h
        obtain ⟨scount, smem⟩ := ih _ _ _ _ _ h
        exact ⟨hfin _ scount, fun h0 hne => smem (hstep _ (by rfl) h0 hne)
          (fun x hx => hne x (List.mem_cons_of_mem r hx))⟩
      · rw [if_neg ha1] at h
        by_cases ha2 : (action == "take_action") = true
        · rw [if_pos ha2] at h
          by_cases hk : (containsSub (lowerStr notes) "reject" ||
              containsSub (lowerStr notes) "remove") = true
          · rw [if_pos hk] at h
            split at h
            · simp at h
            · rename_i db2 px hmod
              obtain ⟨scount, smem⟩ := ih _ _ _ _ _ h
              refine ⟨hfin _ scount, fun h0 hne => smem ?_
                (fun x hx => hne x (List.mem_cons_of_mem r hx))⟩
              rw [moderate_ok_components hmod]
              exact hstep _ (by rfl) h0 hne
          · rw [if_neg hk] at h
            obtain ⟨scount, smem⟩ := ih _ _ _ _ _ h
            exact ⟨hfin _ scount, fun h0 hne => smem (hstep _ (by rfl) h0 hne)
              (fun x hx => hne x (List.mem_cons_of_mem r hx))⟩
        · rw [if_neg ha2] at h
          by_cases ha3 : (action == "remove_paper") = true
          · rw [if_pos ha3] at h
            split at h
            · simp at h
            · rename_i db2 px hmod
              obtain ⟨scount, smem⟩ := ih _ _ _ _ _ h
              refine ⟨hfin _ scount, fun h0 hne => smem ?_
                (fun x hx => hne x (List.mem_cons_of_mem r hx))⟩
              have hd2 : r0 ∈ db2.reports := by
                rw [moderate_ok_components hmod]
                exact hstep _ (by rfl) h0 hne
              repeat' split
              all_goals exact hd2
          · rw [if_neg ha3] at h
            by_cases ha4 : (action == "warn_user") = true
            · rw [if_pos ha4] at h
              obtain ⟨scount, smem⟩ := ih _ _ _ _ _ h
              refine ⟨hfin _ scount, fun h0 hne => smem ?_
                (fun x hx => hne x (List.mem_cons_of_mem r hx))⟩
              repeat' split
              all_goals exact hstep _ (by rfl) h0 hne
            · rw [if_neg ha4] at h
              obtain ⟨scount, smem⟩ := ih _ _ _ _ _ h
              exact ⟨hfin _ scount, fun h0 hne => smem (hstep _ (by rfl) h0 hne)
                (fun x hx => hne x (List.mem_cons_of_mem r hx))⟩
    · rw [if_neg hr] at h
      have hrf : (r.status == RStatus.opened) = false := by simpa using hr
      obtain ⟨scount, smem⟩ := ih _ _ _ _ _ h
      refine ⟨?_, fun h0 hne => smem h0
        (fun x hx => hne x (List.mem_cons_of_mem r hx))⟩
      rw [scount, List.filter_cons]
      simp [hrf]

/-- C5: For every set of report ids, successful bulk resolution returns a
resolved count equal to exactly the number of previously-OPEN reports in the
set, and mutates only those: already-CLOSED reports (whose ids are unique, as
the primary key guarantees) are skipped without modification. -/
theorem bulk_resolve_skips_closed_counts_open
    (db : DB) (report_ids : List Nat) (action notes : String)
    (resolverId : Nat) (now : Int) (db' : DB) (res : BulkResult)
    (huniq : ∀ r1 ∈ db.reports, ∀ r2 ∈ db.reports, r1.id = r2.id → r1 = r2)
    (hok : bulk_resolve_reports db report_ids action notes resolverId now =
      .ok (db', res)) :
    res.resolved_count =
      ((db.reports.filter (fun r => report_ids.contains r.id)).filter
        (fun r => r.status == RStatus.opened)).length ∧
    ∀ r0 ∈ db.reports, r0.status = RStatus.closed → r0 ∈ db'.reports := by
  simp only [bulk_resolve_reports] at hok
  split at hok
  · simp at hok
  · split at hok
    · simp at hok
    · rename_i db2 resolved2 pa2 wi2 hgo
      simp only [Except.ok.injEq, Prod.mk.injEq] at hok
      obtain ⟨hdb, hres⟩ := hok
      subst hdb
      subst hres
      constructor
      · have hcnt := (bulk_go_spec action notes resolverId now
          ⟨0, 0, 0, "", none, RStatus.opened, none, none, none⟩
          (db.reports.filter (fun r => report_ids.contains r.id))
          db 0 0 0 (db2, resolved2, pa2, wi2) hgo).1
        simpa using hcnt
      · intro r0 hmem hclosed
        have hspec := (bulk_go_spec action notes resolverId now r0
          (db.reports.filter (fun r => report_ids.contains r.id))
          db 0 0 0 (db2, resolved2, pa2, wi2) hgo).2
        apply hspec hmem
        intro r hrf hropen hid
        have hrmem : r ∈ db.reports := List.mem_of_mem_filter hrf
        have hreq := huniq r hrmem r0 hmem hid
        rw [hreq, hclosed] at hropen
        exact absurd hropen (by decide)

/-- Witness for C5 at a concrete database with one OPEN and one CLOSED
report in the requested set. -/
theorem bulk_resolve_skips_closed_counts_open_witness :
    ({ resolved_count := 1, total_requested := 2, papers_affected := 0,
       warnings_issued := 0 } : BulkResult).resolved_count =
      ((c5DB.reports.filter (fun r => [1, 2].contains r.id)).filter
        (fun r => r.status == RStatus.opened)).length ∧
    ∀ r0 ∈ c5DB.reports, r0.status = RStatus.closed →
      r0 ∈ c5DBAfter.reports :=
  bulk_resolve_skips_closed_counts_open c5DB [1, 2] "dismiss" "" 9 5
    c5DBAfter
    { resolved_count := 1, total_requested := 2, papers_affected := 0,
      warnings_issued := 0 }
    (by decide) (by rfl)

/-! ### C9: a REJECTED document never returns to APPROVED -/

/-- Notifications do not touch the papers table. -/
theorem create_paper_status_notification_papers (db : DB) (uid : Nat)
    (a b c : String) (pid : Option Nat) :
    (create_paper_status_notification db uid a b c pid).papers =
      db.papers := rfl

theorem create_warning_notification_papers (db : DB) (uid : Nat)
    (a b c : String) (pid rid : Option Nat) :
    (create_warning_notification db uid a b c pid rid).papers =
      db.papers := rfl

/-- A successful `reject` moderation returns a REJECTED paper row. -/
theorem moderate_reject_status {db : DB} {pid : Nat} {n : Option String}
    {mid : Nat} {f : Bool} {t : Int} {db2 : DB} {p2 : Paper}
    (h : moderate_paper db pid "reject" n mid f t = .ok (db2, p2)) :
    p2.status = PStatus.rejected := by
  unfold moderate_paper at h
  repeat' split at h
  all_goals simp only [Except.ok.injEq, Prod.mk.injEq, reduceCtorEq] at h
  all_goals obtain ⟨hdb, hp⟩ := h
  all_goals subst hp
  all_goals first | rfl | simp_all

/-- A successful `reject` moderation preserves `rejectedLocked`. -/
theorem moderate_reject_preserves {db : DB} {pid : Nat} {n : Option String}
    {mid : Nat} {f : Bool} {t : Int} {db2 : DB} {p2 : Paper} {pid0 : Nat}
    (h : moderate_paper db pid "reject" n mid f t = .ok (db2, p2))
    (hInv : rejectedLocked db pid0) : rejectedLocked db2 pid0 := by
  have hcomp := moderate_ok_components h
  have hst := moderate_reject_status h
  subst hcomp
  intro p hp hpid
  rcases mem_replacePaper hp with hEq | ⟨hmem, _⟩
  · rw [hEq]
    exact hst
  · exact hInv p hmem hpid

/-- A successful moderation without force found a PENDING paper and rewrote
only rows with that paper's id. -/
theorem moderate_noforce_facts {db : DB} {pid : Nat} {a : String}
    {n : Option String} {mid : Nat} {t : Int} {db2 : DB} {p2 : Paper}
    (h : moderate_paper db pid a n mid false t = .ok (db2, p2)) :
    ∃ p0, db.papers.find? (fun q => q.id == pid) = some p0 ∧
      p0.status = PStatus.pending ∧ p2.id = p0.id := by
  unfold moderate_paper at h
  split at h
  · simp at h
  · rename_i p0 heq
    split at h
    · simp at h
    · rename_i hcond
      have hpend : p0.status = PStatus.pending := by
        by_contra hne
        apply hcond
        simp only [Bool.not_false, Bool.true_and, Bool.not_eq_eq_eq_not,
          Bool.not_true, beq_eq_false_iff_ne, ne_eq]
        exact hne
      refine ⟨p0, heq, hpend, ?_⟩
      repeat' split at h
      all_goals simp only [Except.ok.injEq, Prod.mk.injEq, reduceCtorEq] at h
      all_goals obtain ⟨hdb, hp⟩ := h
      all_goals subst hp
      all_goals rfl

/-- A successful moderation without force preserves `rejectedLocked`:
it can only have touched a PENDING paper, and a REJECTED one is not. -/
theorem moderate_noforce_preserves {db : DB} {pid : Nat} {a : String}
    {n : Option String} {mid : Nat} {t : Int} {db2 : DB} {p2 : Paper}
    {pid0 : Nat}
    (h : moderate_paper db pid a n mid false t = .ok (db2, p2))
    (hInv : rejectedLocked db pid0) : rejectedLocked db2 pid0 := by
  obtain ⟨p0, hfind, hpend, hid⟩ := moderate_noforce_facts h
  have hcomp := moderate_ok_components h
  subst hcomp
  intro p hp hpid
  rcases mem_replacePaper hp with hEq | ⟨hmem, _⟩
  · exfalso
    have hp0mem : p0 ∈ db.papers := List.mem_of_find?_eq_some hfind
    have hp0id : p0.id = pid0 := hid.symm.trans (hEq ▸ hpid)
    have := hInv p0 hp0mem hp0id
    rw [hpend] at this
    exact absurd this (by decide)
  · exact hInv p hmem hpid

/-- Report resolution preserves `rejectedLocked`: the only transition it ever
forces is `reject`. -/
theorem resolve_preserves {db : DB} {rid : Nat} {a n : String} {uid : Nat}
    {t : Int} {db2 : DB} {res : ResolveResult} {pid0 : Nat}
    (h : resolve_report db rid a n uid t = .ok (db2, res))
    (hInv : rejectedLocked db pid0) : rejectedLocked db2 pid0 := by
  simp only [resolve_report] at h
  split at h
  · simp at h
  · rename_i report hrep
    split at h
    · simp at h
    · by_cases ha1 : (a == "dismiss") = true
      · rw [if_pos ha1] at h
        simp only [Except.ok.injEq, Prod.mk.injEq] at h
        obtain ⟨hdb, _⟩ := h
        subst hdb
        exact hInv
      · rw [if_neg ha1] at h
        by_cases ha2 : (a == "take_action") = true
        · rw [if_pos ha2] at h
          by_cases hk : (containsSub (lowerStr n) "reject" ||
              containsSub (lowerStr n) "remove") = true
          · rw [if_pos hk] at h
            split at h
            · simp at h
            · rename_i dbM px hmod
              simp only [Except.ok.injEq, Prod.mk.injEq] at h
              obtain ⟨hdb, _⟩ := h
              subst hdb
              exact moderate_reject_preserves hmod hInv
          · rw [if_neg hk] at h
            simp only [Except.ok.injEq, Prod.mk.injEq] at h
            obtain ⟨hdb, _⟩ := h
            subst hdb
            exact hInv
        · rw [if_neg ha2] at h
          by_cases ha3 : (a == "remove_paper") = true
          · rw [if_pos ha3] at h
            by_cases hn : (n == "") = true
            · rw [if_pos hn] at h
              split at h
              · simp at h
              · rename_i dbM px hmod
                simp only [Except.ok.injEq, Prod.mk.injEq] at h
                obtain ⟨hdb, _⟩ := h
                subst hdb
                intro p hp hpid
                repeat' split at hp
                all_goals exact moderate_reject_preserves hmod hInv p hp hpid
            · rw [if_neg hn] at h
              split at h
              · simp at h
              · rename_i dbM px hmod
                simp only [Except.ok.injEq, Prod.mk.injEq] at h
                obtain ⟨hdb, _⟩ := h
                subst hdb
                intro p hp hpid
                repeat' split at hp
                all_goals exact moderate_reject_preserves hmod hInv p hp hpid
          · rw [if_neg ha3] at h
            by_cases ha4 : (a == "warn_user") = true
            · rw [if_pos ha4] at h
              simp only [Except.ok.injEq, Prod.mk.injEq] at h
              obtain ⟨hdb, _⟩ := h
              subst hdb
              intro p hp hpid
              repeat' split at hp
              all_goals exact hInv p hp hpid
            · rw [if_neg ha4] at h
              simp only [Except.ok.injEq, Prod.mk.injEq] at h
              obtain ⟨hdb, _⟩ := h
              subst hdb
              exact hInv

/-- The bulk-resolution loop preserves `rejectedLocked`. -/
theorem bulk_go_papers_preserves (action notes : String) (resolverId : Nat)
    (now : Int) (pid0 : Nat) (rs : List Report) :
    ∀ (db : DB) (resolved pa wi : Nat) (out : DB × Nat × Nat × Nat),
      bulk_resolve_go db rs action notes resolverId now resolved pa wi =
        .ok out →
      rejectedLocked db pid0 → rejectedLocked out.1 pid0 := by
  induction rs with
  | nil =>
    intro db resolved pa wi out h hInv
    simp only [bulk_resolve_go, Except.ok.injEq] at h
    subst h
    exact hInv
  | cons r rest ih =>
    intro db resolved pa wi out h hInv
    simp only [bulk_resolve_go] at h
    by_cases hr : (r.status == RStatus.opened) = true
    · rw [if_pos hr] at h
      by_cases ha1 : (action == "dismiss") = true
      · rw [if_pos ha1] at h
        exact ih _ _ _ _ _ h hInv
      · rw [if_neg ha1] at h
        by_cases ha2 : (action == "take_action") = true
        · rw [if_pos ha2] at h
          by_cases hk : (containsSub (lowerStr notes) "reject" ||
              containsSub (lowerStr notes) "remove") = true
          · rw [if_pos hk] at h
            split at h
            · simp at h
            · rename_i dbM px hmod
              exact ih _ _ _ _ _ h (moderate_reject_preserves hmod hInv)
          · rw [if_neg hk] at h
            exact ih _ _ _ _ _ h hInv
        · rw [if_neg ha2] at h
          by_cases ha3 : (action == "remove_paper") = true
          · rw [if_pos ha3] at h
            split at h
            · simp at h
            · rename_i dbM px hmod
              apply ih _ _ _ _ _ h
              intro p hp hpid
              repeat' split at hp
              all_goals exact moderate_reject_preserves hmod hInv p hp hpid
          · rw [if_neg ha3] at h
            by_cases ha4 : (action == "warn_user") = true
            · rw [if_pos ha4] at h
              apply ih _ _ _ _ _ h
              intro p hp hpid
              repeat' split at hp
              all_goals exact hInv p hp hpid
            · rw [if_neg ha4] at h
              exact ih _ _ _ _ _ h hInv
    · rw [if_neg hr] at h
      exact ih _ _ _ _ _ h hInv

/-- Bulk report resolution preserves `rejectedLocked`. -/
theorem bulk_preserves {db : DB} {ids : List Nat} {a n : String} {uid : Nat}
    {t : Int} {db2 : DB} {res : BulkResult} {pid0 : Nat}
    (h : bulk_resolve_reports db ids a n uid t = .ok (db2, res))
    (hInv : rejectedLocked db pid0) : rejectedLocked db2 pid0 := by
  simp only [bulk_resolve_reports] at h
  split at h
  · simp at h
  · split at h
    · simp at h
    · rename_i dbx r p w hgo
      simp only [Except.ok.injEq, Prod.mk.injEq] at h
      obtain ⟨hdb, _⟩ := h
      subst hdb
      exact bulk_go_papers_preserves a n uid t pid0 _ _ _ _ _ _ hgo hInv

/-- Every reachable admin request preserves `rejectedLocked`: the moderation
endpoint never passes force, and the resolution endpoints only force reject. -/
theorem applyAdminOp_preserves (db : DB) (op : AdminOp) (pid0 : Nat)
    (hInv : rejectedLocked db pid0) :
    rejectedLocked (applyAdminOp db op) pid0 := by
  cases op with
  | moderateOp pid a nn mid t =>
    simp only [applyAdminOp]
    split
    · rename_i db2 p2 hmod
      exact moderate_noforce_preserves hmod hInv
    · exact hInv
  | resolveOp rid a nn uid t =>
    simp only [applyAdminOp]
    split
    · rename_i db2 res hres
      exact resolve_preserves hres hInv
    · exact hInv
  | bulkOp ids a nn uid t =>
    simp only [applyAdminOp]
    split
    · rename_i db2 res hres
      exact bulk_preserves hres hInv
    · exact hInv

/-- C9: Once a document's status is REJECTED, no sequence of moderation or
report-resolution requests ever brings it back to APPROVED: every reachable
operation preserves the rejected status, so no re-approve transition exists. -/
theorem rejected_is_terminal (db : DB) (ops : List AdminOp) (pid0 : Nat)
    (hInv : rejectedLocked db pid0) :
    rejectedLocked (applyAdminOps db ops) pid0 ∧
    ∀ p ∈ (applyAdminOps db ops).papers, p.id = pid0 →
      ¬ p.status = PStatus.approved := by
  have hmain : rejectedLocked (applyAdminOps db ops) pid0 := by
    induction ops generalizing db with
    | nil => exact hInv
    | cons op rest ih => exact ih _ (applyAdminOp_preserves db op pid0 hInv)
  refine ⟨hmain, fun p hp hpid => ?_⟩
  rw [hmain p hp hpid]
  decide

/-- Witness for C9 at a concrete database and request sequence. -/
theorem rejected_is_terminal_witness :
    rejectedLocked (applyAdminOps c9DB c9Ops) 1 ∧
    ∀ p ∈ (applyAdminOps c9DB c9Ops).papers, p.id = 1 →
      ¬ p.status = PStatus.approved :=
  rejected_is_terminal c9DB c9Ops 1 (by unfold rejectedLocked; decide)
